import Mathlib

/-!
Verification development for the `ators` runtime attribute model
(Rust sources under `src/`): record instances with a slot array
(`core.rs`), attribute descriptors (`member.rs` and its submodules),
the validator engine (`validators.rs`, `validators/types.rs`,
`validators/values.rs`, `validators/coercer.rs`) and the record-type
construction algorithm (`meta.rs`).

Python objects are modelled as trees tagged with an identity number
(standing for the object address); `a.is(b)` pointer identity becomes
equality of identity numbers.  Fresh allocations draw identities from a
counter threaded through every operation that may allocate.  Host
callbacks (Python callables invoked by hook, coercer or value-validator
variants) are modelled as Lean functions, which covers every observable
behaviour of the callback variants; method-name variants
(`ObjectMethod`), the `TypeInferred` coercer and the lazily resolved
forward/generic validators call back into the Python runtime or the
annotation translator and are outside the fragment the claims exercise.
-/

/-- Python exceptions as the code builds them: an error with a message,
an error with a cause attached (`err_with_cause` in `utils.rs`), or a
`BaseExceptionGroup` aggregating several errors. -/
inductive PyErr : Type where
  | typeError (msg : String) : PyErr
  | valueError (msg : String) : PyErr
  | runtimeError (msg : String) : PyErr
  | withCause (err : PyErr) (cause : PyErr) : PyErr
  | exceptionGroup (errs : List PyErr) : PyErr

mutual

/-- All errors reachable from an error through its cause chain,
including members of exception groups (the error itself included). -/
def PyErr.selfAndCauses : PyErr → List PyErr
  | .typeError m => [.typeError m]
  | .valueError m => [.valueError m]
  | .runtimeError m => [.runtimeError m]
  | .withCause e c => .withCause e c :: (PyErr.selfAndCauses e ++ PyErr.selfAndCauses c)
  | .exceptionGroup errs => .exceptionGroup errs :: PyErr.listSelfAndCauses errs

/-- Auxiliary traversal of a list of errors. -/
def PyErr.listSelfAndCauses : List PyErr → List PyErr
  | [] => []
  | e :: es => PyErr.selfAndCauses e ++ PyErr.listSelfAndCauses es

end

/-- `err_with_cause` from `utils.rs`: attach a cause to an error. -/
def err_with_cause (err : PyErr) (cause : PyErr) : PyErr :=
  PyErr.withCause err cause

/-- Python values, each tagged with an identity (`id`) standing for the
object address.  `atorsSet` and `atorsDict` are the validating wrapper
containers from `containers.rs` (subclasses of `set` and `dict`);
`pyFloat`, `pyBytes` and `foreign` carry no payload because no claim
depends on their contents. -/
inductive PyObj : Type where
  | pyNone (id : Nat) : PyObj
  | pyBool (id : Nat) (b : Bool) : PyObj
  | pyInt (id : Nat) (n : Int) : PyObj
  | pyFloat (id : Nat) : PyObj
  | pyStr (id : Nat) (s : String) : PyObj
  | pyBytes (id : Nat) : PyObj
  | pyTuple (id : Nat) (items : List PyObj) : PyObj
  | pyFrozenSet (id : Nat) (items : List PyObj) : PyObj
  | pySet (id : Nat) (items : List PyObj) : PyObj
  | pyDict (id : Nat) (items : List (PyObj × PyObj)) : PyObj
  | atorsSet (id : Nat) (items : List PyObj) : PyObj
  | atorsDict (id : Nat) (items : List (PyObj × PyObj)) : PyObj
  | foreign (id : Nat) : PyObj

/-- The identity number of an object. -/
def PyObj.objId : PyObj → Nat
  | .pyNone i => i
  | .pyBool i _ => i
  | .pyInt i _ => i
  | .pyFloat i => i
  | .pyStr i _ => i
  | .pyBytes i => i
  | .pyTuple i _ => i
  | .pyFrozenSet i _ => i
  | .pySet i _ => i
  | .pyDict i _ => i
  | .atorsSet i _ => i
  | .atorsDict i _ => i
  | .foreign i => i

/-- Pointer identity `a.is(b)`: equality of identities. -/
def PyObj.is (a b : PyObj) : Bool := a.objId == b.objId

/-- A short stand-in for `repr(value)` in error messages; the exact
rendering of values inside messages is not part of any claim. -/
def PyObj.reprStr : PyObj → String
  | .pyNone _ => "None"
  | .pyBool _ b => if b then "True" else "False"
  | .pyInt _ n => toString n
  | .pyFloat _ => "<float>"
  | .pyStr _ s => s
  | .pyBytes _ => "<bytes>"
  | .pyTuple _ _ => "<tuple>"
  | .pyFrozenSet _ _ => "<frozenset>"
  | .pySet _ _ => "<set>"
  | .pyDict _ _ => "<dict>"
  | .atorsSet _ _ => "<AtorsSet>"
  | .atorsDict _ _ => "<AtorsDict>"
  | .foreign _ => "<object>"

/-- A record instance (`AtorsBase` in `core.rs`): a frozen flag, the
notification flag, and the slot array. -/
structure AtorsBase : Type where
  frozen : Bool
  notification_enabled : Bool
  slots : List (Option PyObj)

/-- `AtorsBase::py_new` (`core.rs`): reject classes with more than 255
members, then build the slot array from the inclusive range
`0..=slots_count`, which yields `slots_count + 1` cells. -/
def AtorsBase.py_new (cls_name : String) (slots_count : Nat) : Except PyErr AtorsBase :=
  if slots_count > 255 then
    .error (.typeError ("The class " ++ cls_name ++
      " has more than 255 members which is not supported."))
  else
    .ok { frozen := false
          notification_enabled := false
          slots := (List.range (slots_count + 1)).map (fun _ => (none : Option PyObj)) }

/-- `get_slot` (`core.rs`): the value stored at `index`, if any.  The
critical section only guards concurrent access and has no sequential
effect. -/
def get_slot (object : AtorsBase) (index : Nat) : Option PyObj :=
  object.slots.getD index none

/-- `set_slot` (`core.rs`): store `value` at `index`. -/
def set_slot (object : AtorsBase) (index : Nat) (value : PyObj) : AtorsBase :=
  { object with slots := object.slots.set index (some value) }

/-- `del_slot` (`core.rs`): clear the slot at `index`. -/
def del_slot (object : AtorsBase) (index : Nat) : AtorsBase :=
  { object with slots := object.slots.set index none }

/-- The free-slot-index pool of `meta.rs`: the set of occupied indices
and the cursor from which the search for a free index starts.  Indices
are `u8` in the source; the cursor never exceeds 255. -/
structure FreeSlotIndexFactory : Type where
  occupied : List Nat
  next_index : Nat
deriving DecidableEq, Repr

/-- `FreeSlotIndexFactory::next_index` (`meta.rs`): advance the cursor
past occupied indices; fail when the cursor sits at `u8::MAX` and that
index is occupied, otherwise claim the first free index.  The source
compares `next_index == u8::MAX`; on the u8 range this is the same as
`255 ≤ next_index`, the rendering used here. -/
def FreeSlotIndexFactory.nextIndex (f : FreeSlotIndexFactory) :
    Except Unit (Nat × FreeSlotIndexFactory) :=
  if f.occupied.contains f.next_index then
    if 255 ≤ f.next_index then .error ()
    else FreeSlotIndexFactory.nextIndex
      { occupied := f.occupied, next_index := f.next_index + 1 }
  else
    .ok (f.next_index, { occupied := f.next_index :: f.occupied, next_index := f.next_index })
termination_by 256 - f.next_index
decreasing_by
  simp_wf
  omega

/-- The pool state after the first `n` indices `0, …, n-1` have been
claimed in order: the occupied list holds them most recent first and the
cursor sits on the last claimed index. -/
def afterAlloc : Nat → FreeSlotIndexFactory
  | 0 => { occupied := [], next_index := 0 }
  | n + 1 => { occupied := n :: (afterAlloc n).occupied, next_index := n }

theorem afterAlloc_occupied_mem (n x : Nat) :
    x ∈ (afterAlloc n).occupied ↔ x < n := by
  induction n with
  | zero => simp [afterAlloc]
  | succ m ih =>
    simp only [afterAlloc, List.mem_cons, ih]
    omega

theorem afterAlloc_contains (n x : Nat) :
    (afterAlloc n).occupied.contains x = decide (x < n) := by
  rw [show (afterAlloc n).occupied.contains x = decide (x ∈ (afterAlloc n).occupied) from
    List.elem_eq_mem x (afterAlloc n).occupied]
  by_cases h : x < n
  · simp [afterAlloc_occupied_mem, h]
  · simp [afterAlloc_occupied_mem, h]

theorem nextIndex_afterAlloc (n : Nat) (h : n ≤ 255) :
    (afterAlloc n).nextIndex = .ok (n, afterAlloc (n + 1)) := by
  cases n with
  | zero =>
    unfold FreeSlotIndexFactory.nextIndex
    rw [afterAlloc_contains]
    simp [afterAlloc]
  | succ m =>
    unfold FreeSlotIndexFactory.nextIndex
    rw [afterAlloc_contains]
    have h1 : decide (((afterAlloc (m + 1)).next_index : Nat) < m + 1) = true := by
      simp [afterAlloc]
    rw [h1]
    have h2 : ¬ 255 ≤ (afterAlloc (m + 1)).next_index := by
      simp only [afterAlloc]
      omega
    simp only [if_true, h2, if_false]
    unfold FreeSlotIndexFactory.nextIndex
    have h3 : (afterAlloc (m + 1)).occupied.contains ((afterAlloc (m + 1)).next_index + 1)
        = false := by
      rw [afterAlloc_contains]
      simp [afterAlloc]
    simp only [h3, Bool.false_eq_true, if_false]
    simp [afterAlloc]

theorem nextIndex_afterAlloc_256 :
    (afterAlloc 256).nextIndex = .error () := by
  unfold FreeSlotIndexFactory.nextIndex
  rw [afterAlloc_contains]
  have h1 : (afterAlloc 256).next_index = 255 := rfl
  rw [h1]
  simp

/-- The slice of `create_ators_subclass` (`meta.rs`) that assigns fresh
slot indices to newly declared attributes: each one draws
`index_factory.next_index()`, and pool exhaustion is mapped to the
`PyTypeError` naming the class. -/
def assignFreshIndices (cls_name : String) (f : FreeSlotIndexFactory) :
    Nat → Except PyErr (List Nat × FreeSlotIndexFactory)
  | 0 => .ok ([], f)
  | n + 1 =>
    match f.nextIndex with
    | .error () =>
      .error (.typeError ("Class " ++ cls_name ++ " has more than 255 members"))
    | .ok (i, f2) =>
      match assignFreshIndices cls_name f2 n with
      | .error e => .error e
      | .ok (idxs, f3) => .ok (i :: idxs, f3)

theorem assignFreshIndices_ok (cls_name : String) :
    ∀ d k, k + d ≤ 256 →
      assignFreshIndices cls_name (afterAlloc k) d = .ok (List.range' k d, afterAlloc (k + d)) := by
  intro d
  induction d with
  | zero => intro k _; simp [assignFreshIndices, List.range']
  | succ m ih =>
    intro k hk
    have hk255 : k ≤ 255 := by omega
    have h1 := nextIndex_afterAlloc k hk255
    have h2 := ih (k + 1) (by omega)
    simp only [assignFreshIndices, h1, h2]
    have hkm : k + 1 + m = k + (m + 1) := by omega
    rw [hkm, List.range']

theorem assignFreshIndices_exhausted (cls_name : String) :
    ∀ d k, k ≤ 256 → 256 < k + d →
      assignFreshIndices cls_name (afterAlloc k) d =
        .error (.typeError ("Class " ++ cls_name ++ " has more than 255 members")) := by
  intro d
  induction d with
  | zero => intro k h1 h2; omega
  | succ m ih =>
    intro k hk hover
    by_cases hklt : k ≤ 255
    · have h1 := nextIndex_afterAlloc k hklt
      have h2 := ih (k + 1) (by omega) (by omega)
      simp only [assignFreshIndices, h1, h2]
    · have hkeq : k = 256 := by omega
      subst hkeq
      simp only [assignFreshIndices, nextIndex_afterAlloc_256]

/-- C1.  The claim states that a fresh instance's slot array has length
exactly N, the attribute count.  On the code this is false: `py_new`
collects the inclusive range `0..=slots_count`, so for a class with 0
attributes the slot array has length 1. -/
theorem C1_counterexample :
    (∃ a, AtorsBase.py_new "A" 0 = .ok a ∧ a.slots.length = 1) ∧
    ¬ (∃ a, AtorsBase.py_new "A" 0 = .ok a ∧ a.slots.length = 0) := by
  constructor
  · refine ⟨_, rfl, ?_⟩
    simp [AtorsBase.py_new]
  · rintro ⟨a, ha, hlen⟩
    simp only [AtorsBase.py_new, if_neg (by omega : ¬ (0 : Nat) > 255), Except.ok.injEq] at ha
    rw [← ha] at hlen
    simp at hlen

/-- C1 (amended).  Constructing an instance of a record type with N
attributes (N ≤ 255) succeeds and produces a slot array of length
exactly N + 1 — one cell more than the attribute count, all cells unset,
with the frozen flag clear. -/
theorem C1_slot_array_length (cls_name : String) (n : Nat) (h : n ≤ 255) :
    ∃ a, AtorsBase.py_new cls_name n = .ok a ∧ a.slots.length = n + 1 ∧
      a.frozen = false ∧ ∀ s ∈ a.slots, s = none := by
  refine ⟨{ frozen := false, notification_enabled := false,
            slots := (List.range (n + 1)).map (fun _ => (none : Option PyObj)) },
          ?_, ?_, rfl, ?_⟩
  · simp only [AtorsBase.py_new, if_neg (by omega : ¬ n > 255)]
  · simp
  · intro s hs
    simp only [List.mem_map] at hs
    obtain ⟨_, _, hs⟩ := hs
    exact hs.symm

/-- Witness for C1 at a concrete attribute count. -/
theorem C1_witness :
    ∃ a, AtorsBase.py_new "Point" 2 = .ok a ∧ a.slots.length = 2 + 1 ∧
      a.frozen = false ∧ ∀ s ∈ a.slots, s = none :=
  C1_slot_array_length "Point" 2 (by omega)

/-- C8.  Slot indices are 8-bit.  A record type that inherits `k`
attributes and declares `d` new ones: when `k + d` exceeds the 256
available distinct 8-bit indices, class construction fails with the
descriptive per-class error; when it does not, every attribute receives
a distinct index, the new ones distinct from the inherited ones.
Independently, instantiating a class whose attribute count exceeds 255
fails in `AtorsBase::py_new`. -/
theorem C8_slot_exhaustion (cls_name : String) (k d icount : Nat) :
    (k ≤ 256 → 256 < k + d →
      assignFreshIndices cls_name (afterAlloc k) d =
        .error (.typeError ("Class " ++ cls_name ++ " has more than 255 members"))) ∧
    (k + d ≤ 256 →
      assignFreshIndices cls_name (afterAlloc k) d =
        .ok (List.range' k d, afterAlloc (k + d)) ∧
      (List.range' k d).Nodup ∧
      ∀ i ∈ List.range' k d, ∀ j ∈ List.range k, i ≠ j) ∧
    (255 < icount →
      AtorsBase.py_new cls_name icount =
        .error (.typeError ("The class " ++ cls_name ++
          " has more than 255 members which is not supported."))) := by
  refine ⟨fun h1 h2 => assignFreshIndices_exhausted cls_name d k h1 h2, fun h => ?_, fun h => ?_⟩
  · refine ⟨assignFreshIndices_ok cls_name d k h, List.nodup_range' k d, ?_⟩
    intro i hi j hj
    rw [List.mem_range'_1] at hi
    rw [List.mem_range] at hj
    omega
  · simp only [AtorsBase.py_new, if_pos (by omega : icount > 255)]

/-- Witness for C8: 257 attributes exhaust the pool, 256 still fit, and
a 256-attribute class cannot be instantiated. -/
theorem C8_witness :
    assignFreshIndices "Big" (afterAlloc 0) 257 =
      .error (.typeError ("Class " ++ "Big" ++ " has more than 255 members")) ∧
    assignFreshIndices "Big" (afterAlloc 0) 256 =
      .ok (List.range' 0 256, afterAlloc (0 + 256)) ∧
    AtorsBase.py_new "Big" 256 =
      .error (.typeError ("The class " ++ "Big" ++
        " has more than 255 members which is not supported.")) :=
  ⟨(C8_slot_exhaustion "Big" 0 257 256).1 (by omega) (by omega),
   ((C8_slot_exhaustion "Big" 0 256 256).2.1 (by omega)).1,
   (C8_slot_exhaustion "Big" 0 257 256).2.2 (by omega)⟩

/-- The Python type name of a value, used inside error messages. -/
def PyObj.typeName : PyObj → String
  | .pyNone _ => "NoneType"
  | .pyBool _ _ => "bool"
  | .pyInt _ _ => "int"
  | .pyFloat _ => "float"
  | .pyStr _ _ => "str"
  | .pyBytes _ => "bytes"
  | .pyTuple _ _ => "tuple"
  | .pyFrozenSet _ _ => "frozenset"
  | .pySet _ _ => "set"
  | .pyDict _ _ => "dict"
  | .atorsSet _ _ => "AtorsSet"
  | .atorsDict _ _ => "AtorsDict"
  | .foreign _ => "object"

/-- `PyBool_Check`. -/
def PyObj.isBoolObj : PyObj → Bool
  | .pyBool _ _ => true
  | _ => false

/-- `PyLong_Check`: in Python, `bool` is a subclass of `int`. -/
def PyObj.isIntObj : PyObj → Bool
  | .pyInt _ _ => true
  | .pyBool _ _ => true
  | _ => false

/-- `PyFloat_Check`. -/
def PyObj.isFloatObj : PyObj → Bool
  | .pyFloat _ => true
  | _ => false

/-- `PyUnicode_Check`. -/
def PyObj.isStrObj : PyObj → Bool
  | .pyStr _ _ => true
  | _ => false

/-- `PyBytes_Check`. -/
def PyObj.isBytesObj : PyObj → Bool
  | .pyBytes _ => true
  | _ => false

/-- `cast_exact::<PyTuple>`: identity and elements of an exact tuple. -/
def PyObj.asTupleExact : PyObj → Option (Nat × List PyObj)
  | .pyTuple i items => some (i, items)
  | _ => Option.none

/-- `cast_exact::<PyFrozenSet>`. -/
def PyObj.asFrozenSetExact : PyObj → Option (Nat × List PyObj)
  | .pyFrozenSet i items => some (i, items)
  | _ => Option.none

/-- `cast::<PySet>`: a plain set or the `AtorsSet` subclass. -/
def PyObj.asSet : PyObj → Option (Nat × List PyObj)
  | .pySet i items => some (i, items)
  | .atorsSet i items => some (i, items)
  | _ => Option.none

/-- `cast::<PyDict>`: a plain dict or the `AtorsDict` subclass. -/
def PyObj.asDict : PyObj → Option (Nat × List (PyObj × PyObj))
  | .pyDict i items => some (i, items)
  | .atorsDict i items => some (i, items)
  | _ => Option.none

/-- The `validation_error!` macro of `validators/types.rs`: the message
names the member and owning instance when both are known. -/
def validation_error (expected : String) (member object : Option String)
    (value : PyObj) : PyErr :=
  match member, object with
  | some m, some o =>
    .typeError ("The member " ++ m ++ " from " ++ o ++ " expects a " ++ expected ++
      ", got " ++ value.reprStr ++ " (" ++ value.typeName ++ ")")
  | _, _ =>
    .typeError ("Expected a " ++ expected ++ ", got " ++ value.reprStr ++
      " (" ++ value.typeName ++ ")")

/-- Fixed-tuple arity mismatch error, citing expected and actual length. -/
def tuple_arity_error (member object : Option String) (expected actual : Nat) : PyErr :=
  match member, object with
  | some m, some o =>
    .typeError ("The member " ++ m ++ " from " ++ o ++ " expects a tuple of length " ++
      toString expected ++ ", got a tuple of length " ++ toString actual)
  | _, _ =>
    .typeError ("Expected a tuple of length " ++ toString expected ++
      ", got a tuple of length " ++ toString actual)

/-- Wrapper for a failed element validation, annotated with the index. -/
def item_fail_error (member object : Option String) (index : Nat) (cause : PyErr) : PyErr :=
  match member, object with
  | some m, some o =>
    err_with_cause (.typeError ("Failed to validate item " ++ toString index ++
      " for the member " ++ m ++ " of " ++ o ++ ".")) cause
  | _, _ =>
    err_with_cause (.typeError ("Failed to validate item " ++ toString index ++ ".")) cause

/-- Wrapper for a failed dict key validation. -/
def dict_key_fail_error (member object : Option String) (keyRepr : String)
    (cause : PyErr) : PyErr :=
  match member, object with
  | some m, some o =>
    err_with_cause (.typeError ("Failed to validate key " ++ keyRepr ++
      " for the member " ++ m ++ " of " ++ o ++ ".")) cause
  | _, _ =>
    err_with_cause (.typeError ("Failed to validate key " ++ keyRepr ++ ".")) cause

/-- Wrapper for a failed dict value validation; the member-less branch
reproduces the source, which interpolates the key and value in swapped
order. -/
def dict_value_fail_error (member object : Option String) (keyRepr valueRepr : String)
    (cause : PyErr) : PyErr :=
  match member, object with
  | some m, some o =>
    err_with_cause (.typeError ("Failed to validate value " ++ valueRepr ++
      " with key " ++ keyRepr ++ " for the member " ++ m ++ " of " ++ o ++ ".")) cause
  | _, _ =>
    err_with_cause (.typeError ("Failed to validate value " ++ keyRepr ++
      " with key " ++ valueRepr ++ ".")) cause

/-- The aggregate union failure: a top error whose cause is a
`BaseExceptionGroup` holding every child failure in order. -/
def union_fail_error (value : PyObj) (errs : List PyErr) : PyErr :=
  err_with_cause
    (.typeError ("Value " ++ value.reprStr ++ " is not valid for any member of the union"))
    (.exceptionGroup errs)

/-- `Coercer` (`validators/coercer.rs`).  The host-callback variant
covers every observable input-output behaviour of a coercer; the
`TypeInferred` and method-name variants call Python constructors or
methods and are outside the embedded fragment. -/
inductive Coercer : Type where
  | callValue (f : PyObj → Except PyErr PyObj) : Coercer

/-- `ValueValidator` (`validators/values.rs`).  The host-callback
variant, whose call result is discarded and only success or failure
matters, covers every observable accept/reject behaviour. -/
inductive ValueValidator : Type where
  | callValue (f : PyObj → Except PyErr PyObj) : ValueValidator

mutual

/-- `TypeValidator` (`validators/types.rs`): the closed variant set of
type contracts.  `Typed`, `Instance`, `GenericAttributes` and
`ForwardValidator` check against live Python type objects or resolve
forward references through the translator; no claim exercises them. -/
inductive TypeValidator : Type where
  | any : TypeValidator
  | none : TypeValidator
  | bool : TypeValidator
  | int : TypeValidator
  | float : TypeValidator
  | str : TypeValidator
  | bytes : TypeValidator
  | tuple (items : List Validator) : TypeValidator
  | varTuple (item : Option Validator) : TypeValidator
  | frozenSet (item : Option Validator) : TypeValidator
  | set (item : Option Validator) : TypeValidator
  | dict (items : Option (Validator × Validator)) : TypeValidator
  | union (members : List Validator) : TypeValidator

/-- `Validator` (`validators.rs`): one type validator, the ordered
secondary value validators, and the optional coercer consulted when
strict validation fails. -/
inductive Validator : Type where
  | mk (type_validator : TypeValidator) (value_validators : List ValueValidator)
      (coercer : Option Coercer) : Validator

end

/-- The type validator of a `Validator`. -/
def Validator.type_validator : Validator → TypeValidator
  | .mk tv _ _ => tv

/-- The value validators of a `Validator`. -/
def Validator.value_validators : Validator → List ValueValidator
  | .mk _ vvs _ => vvs

/-- The coercer of a `Validator`. -/
def Validator.coercer : Validator → Option Coercer
  | .mk _ _ c => c

/-- `Coercer::coerce_value` for the embedded variant: invoke the host
callback on the value. -/
def Coercer.coerce_value (c : Coercer) (type_validator : TypeValidator)
    (member object : Option String) (value : PyObj) (gen : Nat) :
    (Except PyErr PyObj) × Nat :=
  match c with
  | .callValue f => (f value, gen)

/-- `ValueValidator::validate_value`: the callback result is discarded,
only success or failure is observed. -/
def ValueValidator.validate_value (vv : ValueValidator)
    (member object : Option String) (value : PyObj) : Except PyErr Unit :=
  match vv with
  | .callValue f => (f value).map (fun _ => ())

/-- The value-validator loop of `Validator::strict_validate`: run each
validator in declared order, stopping at the first failure. -/
def runValueValidators (member object : Option String) (value : PyObj) :
    List ValueValidator → Except PyErr Unit
  | [] => .ok ()
  | vv :: rest =>
    match vv.validate_value member object value with
    | .ok _ => runValueValidators member object value rest
    | .error e => .error e

mutual

/-- `Validator::validate` (`validators.rs`): strict validation first;
only when it fails and a coercer is configured is the coercer invoked,
and its result is returned as-is; with no coercer the strict error is
returned. -/
def Validator.validate : Validator → Option String → Option String → PyObj → Nat →
    (Except PyErr PyObj) × Nat
  | .mk tv vvs c, member, object, value, gen =>
    match Validator.strict_validate (.mk tv vvs c) member object value gen with
    | (.ok v, g2) => (.ok v, g2)
    | (.error err, g2) =>
      match c with
      | some co => Coercer.coerce_value co tv member object value g2
      | Option.none => (.error err, g2)
termination_by self _ _ _ _ => (sizeOf self, 2, 0)

/-- `Validator::strict_validate`: the type validator, then the value
validators in declared order. -/
def Validator.strict_validate : Validator → Option String → Option String → PyObj → Nat →
    (Except PyErr PyObj) × Nat
  | .mk tv vvs _, member, object, value, gen =>
    match TypeValidator.validate_type tv member object value gen with
    | (.error e, g2) => (.error e, g2)
    | (.ok v, g2) =>
      match runValueValidators member object v vvs with
      | .ok _ => (.ok v, g2)
      | .error e => (.error e, g2)
termination_by self _ _ _ _ => (sizeOf self, 1, 0)

/-- `TypeValidator::validate_type` (`validators/types.rs`): dispatch on
the variant.  Containers check the value's runtime type, validate
elements, and either return the original object or build a fresh one;
`union` tries the members in order. -/
def TypeValidator.validate_type : TypeValidator → Option String → Option String → PyObj → Nat →
    (Except PyErr PyObj) × Nat
  | .any, _, _, value, gen => (.ok value, gen)
  | .none, member, object, value, gen =>
    match value with
    | .pyNone _ => (.ok value, gen)
    | _ => (.error (validation_error "None" member object value), gen)
  | .bool, member, object, value, gen =>
    if value.isBoolObj then (.ok value, gen)
    else (.error (validation_error "bool" member object value), gen)
  | .int, member, object, value, gen =>
    if value.isIntObj then (.ok value, gen)
    else (.error (validation_error "int" member object value), gen)
  | .float, member, object, value, gen =>
    if value.isFloatObj then (.ok value, gen)
    else (.error (validation_error "float" member object value), gen)
  | .str, member, object, value, gen =>
    if value.isStrObj then (.ok value, gen)
    else (.error (validation_error "str" member object value), gen)
  | .bytes, member, object, value, gen =>
    if value.isBytesObj then (.ok value, gen)
    else (.error (validation_error "bytes" member object value), gen)
  | .tuple items, member, object, value, gen =>
    match value.asTupleExact with
    | Option.none => (.error (validation_error "tuple" member object value), gen)
    | some (_, elems) =>
      if elems.length ≠ items.length then
        (.error (tuple_arity_error member object items.length elems.length), gen)
      else
        match validateTupleItems member object elems items elems 0 Option.none gen with
        | (.error e, g2) => (.error e, g2)
        | (.ok Option.none, g2) => (.ok value, g2)
        | (.ok (some vi), g2) => (.ok (.pyTuple g2 vi), g2 + 1)
  | .varTuple (some item), member, object, value, gen =>
    match value.asTupleExact with
    | Option.none => (.error (validation_error "tuple" member object value), gen)
    | some (_, elems) =>
      match validateSeqItems member object item elems elems 0 Option.none gen with
      | (.error e, g2) => (.error e, g2)
      | (.ok Option.none, g2) => (.ok value, g2)
      | (.ok (some vi), g2) => (.ok (.pyTuple g2 vi), g2 + 1)
  | .varTuple Option.none, member, object, value, gen =>
    match value.asTupleExact with
    | some _ => (.ok value, gen)
    | Option.none => (.error (validation_error "tuple" member object value), gen)
  | .frozenSet (some item), member, object, value, gen =>
    match value.asFrozenSetExact with
    | Option.none => (.error (validation_error "frozenset" member object value), gen)
    | some (_, elems) =>
      match validateSeqItems member object item elems elems 0 Option.none gen with
      | (.error e, g2) => (.error e, g2)
      | (.ok Option.none, g2) => (.ok value, g2)
      | (.ok (some vi), g2) => (.ok (.pyFrozenSet g2 vi), g2 + 1)
  | .frozenSet Option.none, member, object, value, gen =>
    match value.asFrozenSetExact with
    | some _ => (.ok value, gen)
    | Option.none => (.error (validation_error "frozenset" member object value), gen)
  | .set (some item), member, object, value, gen =>
    match value.asSet with
    | Option.none => (.error (validation_error "set" member object value), gen)
    | some (_, elems) =>
      match validateAllItems member object item elems 0 gen with
      | (.error e, g2) => (.error e, g2)
      | (.ok vi, g2) => (.ok (.atorsSet g2 vi), g2 + 1)
  | .set Option.none, member, object, value, gen =>
    match value.asSet with
    | some (_, elems) => (.ok (.pySet gen elems), gen + 1)
    | Option.none => (.error (validation_error "set" member object value), gen)
  | .dict (some (key_v, val_v)), member, object, value, gen =>
    match value.asDict with
    | Option.none => (.error (validation_error "dict" member object value), gen)
    | some (_, entries) =>
      match validateDictItems member object key_v val_v entries gen with
      | (.error e, g2) => (.error e, g2)
      | (.ok vi, g2) => (.ok (.atorsDict g2 vi), g2 + 1)
  | .dict Option.none, member, object, value, gen =>
    match value.asDict with
    | some (_, entries) => (.ok (.pyDict gen entries), gen + 1)
    | Option.none => (.error (validation_error "dict" member object value), gen)
  | .union members, member, object, value, gen =>
    tryUnion member object value members [] gen
termination_by tv _ _ _ _ => (sizeOf tv, 0, 0)

/-- The fixed-tuple element loop: each element is validated by its
positional validator; a validated element is pushed only when the result
is not identical to the element, back-filling the untouched earlier
elements on the first change. -/
def validateTupleItems : Option String → Option String → List PyObj → List Validator →
    List PyObj → Nat → Option (List PyObj) → Nat →
    (Except PyErr (Option (List PyObj))) × Nat
  | _, _, _, [], _, _, acc, gen => (.ok acc, gen)
  | _, _, _, _ :: _, [], _, acc, gen => (.ok acc, gen)
  | member, object, orig, v :: vs, e :: es, index, acc, gen =>
    match Validator.validate v member object e gen with
    | (.error cause, g2) => (.error (item_fail_error member object index cause), g2)
    | (.ok r, g2) =>
      let acc2 :=
        if r.is e then acc
        else
          match acc with
          | some vec => some (vec ++ [r])
          | Option.none => some (orig.take index ++ [r])
      validateTupleItems member object orig vs es (index + 1) acc2 g2
termination_by _ _ _ vs _ _ _ _ => (sizeOf vs, 3, 0)

/-- The `VarTuple` and `FrozenSet` element loop.  The source guards the
push with `!v.is(item)` where `item` is the `Py<Validator>` cell — the
validator object, not the element — and a validated value is never that
validator object, so the guard always passes and every validated element
is pushed. -/
def validateSeqItems : Option String → Option String → Validator → List PyObj →
    List PyObj → Nat → Option (List PyObj) → Nat →
    (Except PyErr (Option (List PyObj))) × Nat
  | _, _, _, _, [], _, acc, gen => (.ok acc, gen)
  | member, object, item, orig, e :: es, index, acc, gen =>
    match Validator.validate item member object e gen with
    | (.error cause, g2) => (.error (item_fail_error member object index cause), g2)
    | (.ok r, g2) =>
      let acc2 :=
        match acc with
        | some vec => some (vec ++ [r])
        | Option.none => some (orig.take index ++ [r])
      validateSeqItems member object item orig es (index + 1) acc2 g2
termination_by _ _ item _ elems _ _ _ => (sizeOf item, 3, elems.length)

/-- The `Set` element loop: every element is validated and collected. -/
def validateAllItems : Option String → Option String → Validator →
    List PyObj → Nat → Nat → (Except PyErr (List PyObj)) × Nat
  | _, _, _, [], _, gen => (.ok [], gen)
  | member, object, item, e :: es, index, gen =>
    match Validator.validate item member object e gen with
    | (.error cause, g2) => (.error (item_fail_error member object index cause), g2)
    | (.ok r, g2) =>
      match validateAllItems member object item es (index + 1) g2 with
      | (.error e2, g3) => (.error e2, g3)
      | (.ok rs, g3) => (.ok (r :: rs), g3)
termination_by _ _ item elems _ _ => (sizeOf item, 3, elems.length)

/-- The `Dict` entry loop: the key and the value validation are both
evaluated, then the key failure is reported first. -/
def validateDictItems : Option String → Option String → Validator → Validator →
    List (PyObj × PyObj) → Nat → (Except PyErr (List (PyObj × PyObj))) × Nat
  | _, _, _, _, [], gen => (.ok [], gen)
  | member, object, key_v, val_v, (tk, tv) :: rest, gen =>
    match Validator.validate key_v member object tk gen with
    | (rk, gk) =>
      match Validator.validate val_v member object tv gk with
      | (rv, gv) =>
        match rk, rv with
        | .error e, _ => (.error (dict_key_fail_error member object tk.reprStr e), gv)
        | .ok _, .error e =>
          (.error (dict_value_fail_error member object tk.reprStr tv.reprStr e), gv)
        | .ok k, .ok v =>
          match validateDictItems member object key_v val_v rest gv with
          | (.error e2, g3) => (.error e2, g3)
          | (.ok rs, g3) => (.ok ((k, v) :: rs), g3)
termination_by _ _ key_v val_v entries _ => (sizeOf key_v + sizeOf val_v + 1, 3, entries.length)

/-- The `Union` loop (`validators/types.rs`): try each member validator
in declaration order, returning the first success; collect every failure
and aggregate them when all members reject the value. -/
def tryUnion : Option String → Option String → PyObj → List Validator →
    List PyErr → Nat → (Except PyErr PyObj) × Nat
  | _, _, value, [], errs, gen => (.error (union_fail_error value errs), gen)
  | member, object, value, v :: vs, errs, gen =>
    match Validator.validate v member object value gen with
    | (.ok validated, g2) => (.ok validated, g2)
    | (.error e, g2) => tryUnion member object value vs (errs ++ [e]) g2
termination_by _ _ _ vs _ _ => (sizeOf vs, 3, 0)

end

theorem runValueValidators_append_ok (member object : Option String) (v : PyObj)
    (rest : List ValueValidator) :
    ∀ pre : List ValueValidator,
      (∀ vv ∈ pre, vv.validate_value member object v = .ok ()) →
      runValueValidators member object v (pre ++ rest) =
        runValueValidators member object v rest := by
  intro pre
  induction pre with
  | nil => intro _; rfl
  | cons vv vvs ih =>
    intro h
    have h1 : vv.validate_value member object v = .ok () := h vv (by simp)
    simp only [List.cons_append, runValueValidators, h1]
    exact ih (fun w hw => h w (by simp [hw]))

/-- C4.  `Validator::validate` first attempts strict validation (the
type validator, then the value validators in declared order); only when
strict validation fails and a coercer is configured is the coercer
invoked, and the coercer's result is returned as-is — the value
validators are not re-run on it; with no coercer the strict error is
returned.  Part (D) exhibits the skip: with an always-rejecting value
validator installed, the coerced result is still returned unchecked. -/
theorem C4_strict_then_coerce (tv : TypeValidator) (vvs : List ValueValidator)
    (copt : Option Coercer) (c : Coercer) (member object : Option String)
    (value : PyObj) (gen : Nat) :
    (∀ r g2, Validator.strict_validate (.mk tv vvs copt) member object value gen = (.ok r, g2) →
      Validator.validate (.mk tv vvs copt) member object value gen = (.ok r, g2)) ∧
    (∀ e g2,
      Validator.strict_validate (.mk tv vvs Option.none) member object value gen = (.error e, g2) →
      Validator.validate (.mk tv vvs Option.none) member object value gen = (.error e, g2)) ∧
    (∀ e g2,
      Validator.strict_validate (.mk tv vvs (some c)) member object value gen = (.error e, g2) →
      Validator.validate (.mk tv vvs (some c)) member object value gen =
        Coercer.coerce_value c tv member object value g2) ∧
    (∀ (erej : PyErr) (f : PyObj → Except PyErr PyObj), ∃ g2,
      Validator.validate
        (.mk tv (.callValue (fun _ => .error erej) :: vvs) (some (.callValue f)))
        member object value gen = (f value, g2)) ∧
    (∀ e g2, TypeValidator.validate_type tv member object value gen = (.error e, g2) →
      Validator.strict_validate (.mk tv vvs copt) member object value gen = (.error e, g2)) ∧
    (∀ v g2 (pre post : List ValueValidator) (g : PyObj → Except PyErr PyObj) e,
      TypeValidator.validate_type tv member object value gen = (.ok v, g2) →
      (∀ vv ∈ pre, vv.validate_value member object v = .ok ()) →
      g v = .error e →
      Validator.strict_validate (.mk tv (pre ++ .callValue g :: post) copt)
        member object value gen = (.error e, g2)) := by
  refine ⟨?_, ?_, ?_, ?_, ?_, ?_⟩
  · intro r g2 h
    simp only [Validator.validate, h]
  · intro e g2 h
    simp only [Validator.validate, h]
  · intro e g2 h
    simp only [Validator.validate, h]
  · intro erej f
    rcases hvt : TypeValidator.validate_type tv member object value gen with ⟨res, g2⟩
    refine ⟨g2, ?_⟩
    cases res with
    | ok v =>
      have hstrict : Validator.strict_validate
          (.mk tv (.callValue (fun _ => .error erej) :: vvs) (some (.callValue f)))
          member object value gen = (.error erej, g2) := by
        simp only [Validator.strict_validate, hvt, runValueValidators,
          ValueValidator.validate_value, Except.map]
      simp only [Validator.validate, hstrict, Coercer.coerce_value]
    | error e =>
      have hstrict : Validator.strict_validate
          (.mk tv (.callValue (fun _ => .error erej) :: vvs) (some (.callValue f)))
          member object value gen = (.error e, g2) := by
        simp only [Validator.strict_validate, hvt]
      simp only [Validator.validate, hstrict, Coercer.coerce_value]
  · intro e g2 h
    simp only [Validator.strict_validate, h]
  · intro v g2 pre post g e hvt hpre hg
    have hrun : runValueValidators member object v (pre ++ .callValue g :: post) =
        .error e := by
      rw [runValueValidators_append_ok member object v _ pre hpre]
      simp only [runValueValidators, ValueValidator.validate_value, hg, Except.map]
    simp only [Validator.strict_validate, hvt, hrun]

/-- Witness for C4: an `int` member with an always-failing value
validator and a coercer mapping everything to the integer three; strict
validation of a string fails, the coercer result is returned as-is. -/
theorem C4_witness :
    (∃ g2, Validator.validate
      (.mk .int (.callValue (fun _ => .error (.valueError "no")) :: [])
        (some (.callValue (fun _ => .ok (.pyInt 5 3)))))
      Option.none Option.none (.pyStr 0 "x") 7 = (.ok (.pyInt 5 3), g2)) ∧
    Validator.validate (.mk .int [] Option.none) Option.none Option.none (.pyStr 0 "x") 7 =
      (.error (validation_error "int" Option.none Option.none (.pyStr 0 "x")), 7) := by
  constructor
  · exact (C4_strict_then_coerce .int [] Option.none
      (.callValue (fun _ => .ok (.pyInt 5 3))) Option.none Option.none (.pyStr 0 "x") 7).2.2.2.1
      (.valueError "no") (fun _ => .ok (.pyInt 5 3))
  · exact (C4_strict_then_coerce .int [] Option.none
      (.callValue (fun _ => .ok (.pyInt 5 3))) Option.none Option.none (.pyStr 0 "x") 7).2.1
      (validation_error "int" Option.none Option.none (.pyStr 0 "x")) 7
      (by simp [Validator.strict_validate, TypeValidator.validate_type, PyObj.isIntObj])

theorem PyErr.self_mem_selfAndCauses (e : PyErr) : e ∈ e.selfAndCauses := by
  cases e <;> simp [PyErr.selfAndCauses]

theorem PyErr.mem_listSelfAndCauses (e : PyErr) :
    ∀ errs : List PyErr, e ∈ errs → e ∈ PyErr.listSelfAndCauses errs := by
  intro errs
  induction errs with
  | nil => intro h; cases h
  | cons x xs ih =>
    intro h
    rcases List.mem_cons.mp h with h1 | h2
    · subst h1
      simp only [PyErr.listSelfAndCauses, List.mem_append]
      exact Or.inl (PyErr.self_mem_selfAndCauses e)
    · simp only [PyErr.listSelfAndCauses, List.mem_append]
      exact Or.inr (ih h2)

/-- Every aggregated child error is reachable from the union error
through the cause chain. -/
theorem mem_selfAndCauses_union_fail (value : PyObj) (errs : List PyErr) (e : PyErr)
    (h : e ∈ errs) : e ∈ (union_fail_error value errs).selfAndCauses := by
  simp only [union_fail_error, err_with_cause, PyErr.selfAndCauses, List.mem_cons,
    List.mem_append]
  exact Or.inr (Or.inr (Or.inr (PyErr.mem_listSelfAndCauses e errs h)))

theorem tryUnion_first_success (member object : Option String) (value : PyObj)
    (v : Validator) (post : List Validator)
    (hv : ∀ g0, ∃ r g2, Validator.validate v member object value g0 = (.ok r, g2)) :
    ∀ (pre : List Validator) (errs : List PyErr) (g : Nat),
      (∀ u ∈ pre, ∀ g0, ∃ e g2, Validator.validate u member object value g0 = (.error e, g2)) →
      ∃ g1 r g2, tryUnion member object value (pre ++ v :: post) errs g = (.ok r, g2) ∧
        Validator.validate v member object value g1 = (.ok r, g2) := by
  intro pre
  induction pre with
  | nil =>
    intro errs g _
    obtain ⟨r, g2, hr⟩ := hv g
    exact ⟨g, r, g2, by simp only [List.nil_append, tryUnion, hr], hr⟩
  | cons u us ih =>
    intro errs g hpre
    obtain ⟨e, g2, he⟩ := hpre u (by simp) g
    obtain ⟨g1, r, g3, htail, hval⟩ :=
      ih (errs ++ [e]) g2 (fun w hw => hpre w (by simp [hw]))
    refine ⟨g1, r, g3, ?_, hval⟩
    simp only [List.cons_append, tryUnion, he]
    exact htail

theorem tryUnion_all_fail (member object : Option String) (value : PyObj) :
    ∀ (members : List Validator) (errsAcc : List PyErr) (g : Nat),
      (∀ u ∈ members, ∀ g0, ∃ e g2,
        Validator.validate u member object value g0 = (.error e, g2)) →
      ∃ errs g2, tryUnion member object value members errsAcc g =
          (.error (union_fail_error value (errsAcc ++ errs)), g2) ∧
        List.Forall₂ (fun u e => ∃ ga gb,
          Validator.validate u member object value ga = (.error e, gb)) members errs := by
  intro members
  induction members with
  | nil =>
    intro errsAcc g _
    exact ⟨[], g, by simp [tryUnion], List.Forall₂.nil⟩
  | cons u us ih =>
    intro errsAcc g hall
    obtain ⟨e, g2, he⟩ := hall u (by simp) g
    obtain ⟨errs, g3, htail, hrel⟩ := ih (errsAcc ++ [e]) g2 (fun w hw => hall w (by simp [hw]))
    refine ⟨e :: errs, g3, ?_, List.Forall₂.cons ⟨g, g2, he⟩ hrel⟩
    simp only [tryUnion, he]
    rw [htail]
    simp

/-- C5.  `Union` tries its member validators strictly in declaration
order: the first member that accepts the value determines the result;
when every member rejects it, the union fails with a single aggregate
error whose cause is an exception group holding every member's failure
in order, each reachable through the cause chain. -/
theorem C5_union_order (member object : Option String) (value : PyObj) (gen : Nat)
    (members pre post : List Validator) (v : Validator) :
    ((∀ u ∈ pre, ∀ g0, ∃ e g2, Validator.validate u member object value g0 = (.error e, g2)) →
      (∀ g0, ∃ r g2, Validator.validate v member object value g0 = (.ok r, g2)) →
      ∃ g1 r g2,
        TypeValidator.validate_type (.union (pre ++ v :: post)) member object value gen =
          (.ok r, g2) ∧
        Validator.validate v member object value g1 = (.ok r, g2)) ∧
    ((∀ u ∈ members, ∀ g0, ∃ e g2,
        Validator.validate u member object value g0 = (.error e, g2)) →
      ∃ errs g2,
        TypeValidator.validate_type (.union members) member object value gen =
          (.error (union_fail_error value errs), g2) ∧
        List.Forall₂ (fun u e => ∃ ga gb,
          Validator.validate u member object value ga = (.error e, gb)) members errs ∧
        ∀ e ∈ errs, e ∈ (union_fail_error value errs).selfAndCauses) := by
  constructor
  · intro hpre hv
    obtain ⟨g1, r, g2, hrun, hval⟩ :=
      tryUnion_first_success member object value v post hv pre [] gen hpre
    exact ⟨g1, r, g2, by simp only [TypeValidator.validate_type]; exact hrun, hval⟩
  · intro hall
    obtain ⟨errs, g2, hrun, hrel⟩ := tryUnion_all_fail member object value members [] gen hall
    rw [List.nil_append] at hrun
    refine ⟨errs, g2, by simp only [TypeValidator.validate_type]; exact hrun, hrel, ?_⟩
    intro e he
    exact mem_selfAndCauses_union_fail value errs e he

/-- Witness for C5: `Union[int, str]` on a string picks the `str`
member; `Union[int, str]` on a float rejects with both failures
aggregated and reachable. -/
theorem C5_witness :
    (∃ g1 r g2,
      TypeValidator.validate_type
        (.union ([.mk .int [] Option.none] ++ (.mk .str [] Option.none) :: []))
        Option.none Option.none (.pyStr 0 "x") 7 = (.ok r, g2) ∧
      Validator.validate (.mk .str [] Option.none) Option.none Option.none
        (.pyStr 0 "x") g1 = (.ok r, g2)) ∧
    (∃ errs g2,
      TypeValidator.validate_type (.union [.mk .int [] Option.none, .mk .str [] Option.none])
        Option.none Option.none (.pyFloat 1) 7 = (.error (union_fail_error (.pyFloat 1) errs), g2) ∧
      List.Forall₂ (fun u e => ∃ ga gb,
        Validator.validate u Option.none Option.none (.pyFloat 1) ga = (.error e, gb))
        [Validator.mk .int [] Option.none, .mk .str [] Option.none] errs ∧
      ∀ e ∈ errs, e ∈ (union_fail_error (.pyFloat 1) errs).selfAndCauses) := by
  constructor
  · refine (C5_union_order Option.none Option.none (.pyStr 0 "x") 7
      [] [.mk .int [] Option.none] [] (.mk .str [] Option.none)).1 ?_ ?_
    · intro u hu g0
      rcases List.mem_singleton.mp hu with rfl
      refine ⟨validation_error "int" Option.none Option.none (.pyStr 0 "x"), g0, ?_⟩
      simp [Validator.validate, Validator.strict_validate, TypeValidator.validate_type,
        PyObj.isIntObj]
    · intro g0
      refine ⟨.pyStr 0 "x", g0, ?_⟩
      simp [Validator.validate, Validator.strict_validate, TypeValidator.validate_type,
        PyObj.isStrObj, runValueValidators]
  · refine (C5_union_order Option.none Option.none (.pyFloat 1) 7
      [.mk .int [] Option.none, .mk .str [] Option.none] [] [] (.mk .any [] Option.none)).2 ?_
    intro u hu g0
    rcases List.mem_cons.mp hu with rfl | hu2
    · refine ⟨validation_error "int" Option.none Option.none (.pyFloat 1), g0, ?_⟩
      simp [Validator.validate, Validator.strict_validate, TypeValidator.validate_type,
        PyObj.isIntObj]
    · rcases List.mem_singleton.mp hu2 with rfl
      refine ⟨validation_error "str" Option.none Option.none (.pyFloat 1), g0, ?_⟩
      simp [Validator.validate, Validator.strict_validate, TypeValidator.validate_type,
        PyObj.isStrObj]

theorem validateTupleItems_all_self (member object : Option String) (orig : List PyObj) :
    ∀ (items : List Validator) (elems : List PyObj) (index gen : Nat),
      List.Forall₂ (fun vd e => ∀ g, ∃ r g2,
        Validator.validate vd member object e g = (.ok r, g2) ∧ r.is e = true) items elems →
      ∃ g2, validateTupleItems member object orig items elems index Option.none gen =
        (.ok Option.none, g2) := by
  intro items
  induction items with
  | nil =>
    intro elems index gen h
    cases h
    exact ⟨gen, by simp [validateTupleItems]⟩
  | cons vd vds ih =>
    intro elems index gen h
    cases h with
    | cons hhead htail =>
      rename_i e es
      obtain ⟨r, g2, hval, his⟩ := hhead gen
      obtain ⟨g3, hrec⟩ := ih es (index + 1) g2 htail
      refine ⟨g3, ?_⟩
      simp only [validateTupleItems, hval, his, if_true]
      exact hrec

theorem validateSeqItems_from_some (member object : Option String) (item : Validator)
    (orig : List PyObj)
    (h : ∀ e ∈ orig, ∀ g, Validator.validate item member object e g = (.ok e, g)) :
    ∀ (elems : List PyObj), (∀ e ∈ elems, e ∈ orig) →
      ∀ (index : Nat) (vec : List PyObj) (gen : Nat),
      validateSeqItems member object item orig elems index (some vec) gen =
        (.ok (some (vec ++ elems)), gen) := by
  intro elems
  induction elems with
  | nil => intro _ index vec gen; simp [validateSeqItems]
  | cons e es ih =>
    intro hsub index vec gen
    have hval := h e (hsub e (by simp)) gen
    simp only [validateSeqItems, hval]
    rw [ih (fun x hx => hsub x (by simp [hx])) (index + 1) (vec ++ [e]) gen]
    simp

theorem validateSeqItems_all_self (member object : Option String) (item : Validator)
    (elems : List PyObj) (gen : Nat)
    (h : ∀ e ∈ elems, ∀ g, Validator.validate item member object e g = (.ok e, g))
    (hne : elems ≠ []) :
    validateSeqItems member object item elems elems 0 Option.none gen =
      (.ok (some elems), gen) := by
  cases elems with
  | nil => exact absurd rfl hne
  | cons e es =>
    have hval := h e (by simp) gen
    simp only [validateSeqItems, hval]
    rw [validateSeqItems_from_some member object item (e :: es) h es
      (fun x hx => by simp [hx]) 1 (List.take 0 (e :: es) ++ [e]) gen]
    simp

theorem validateAllItems_all_self (member object : Option String) (item : Validator) :
    ∀ (elems : List PyObj) (index gen : Nat),
      (∀ e ∈ elems, ∀ g, Validator.validate item member object e g = (.ok e, g)) →
      validateAllItems member object item elems index gen = (.ok elems, gen) := by
  intro elems
  induction elems with
  | nil => intro index gen _; simp [validateAllItems]
  | cons e es ih =>
    intro index gen h
    have hval := h e (by simp) gen
    simp only [validateAllItems, hval]
    rw [ih (index + 1) gen (fun x hx => h x (by simp [hx]))]

theorem validateDictItems_all_self (member object : Option String) (key_v val_v : Validator) :
    ∀ (entries : List (PyObj × PyObj)) (gen : Nat),
      (∀ p ∈ entries, (∀ g, Validator.validate key_v member object p.1 g = (.ok p.1, g)) ∧
        (∀ g, Validator.validate val_v member object p.2 g = (.ok p.2, g))) →
      validateDictItems member object key_v val_v entries gen = (.ok entries, gen) := by
  intro entries
  induction entries with
  | nil => intro gen _; simp [validateDictItems]
  | cons p ps ih =>
    intro gen h
    obtain ⟨hk, hv⟩ := h p (by simp)
    rcases p with ⟨tk, tv⟩
    simp only [validateDictItems, hk gen, hv gen]
    rw [ih gen (fun q hq => h q (by simp [hq]))]

/-- C2 (amended).  The identity-preservation fast path holds only for
the fixed `Tuple` validator: when every element validates to itself, the
original tuple object is returned.  `VarTuple` and `FrozenSet` with an
item validator rebuild the container whenever it is nonempty, because
their fast-path identity test compares the validated element against the
validator cell rather than the element; `Set` and `Dict` always return a
new object — a fresh validating wrapper when an item validator is
configured, a fresh copy otherwise. -/
theorem C2_container_identity (member object : Option String) (item key_v val_v : Validator)
    (items : List Validator) (i gen : Nat) (elems : List PyObj)
    (entries : List (PyObj × PyObj)) :
    (List.Forall₂ (fun vd e => ∀ g, ∃ r g2,
        Validator.validate vd member object e g = (.ok r, g2) ∧ r.is e = true) items elems →
      ∃ g2, TypeValidator.validate_type (.tuple items) member object (.pyTuple i elems) gen =
        (.ok (.pyTuple i elems), g2)) ∧
    ((∀ e ∈ elems, ∀ g, Validator.validate item member object e g = (.ok e, g)) →
      elems ≠ [] → gen ≠ i →
      TypeValidator.validate_type (.varTuple (some item)) member object
          (.pyTuple i elems) gen = (.ok (.pyTuple gen elems), gen + 1) ∧
        (PyObj.pyTuple gen elems).is (.pyTuple i elems) = false) ∧
    ((∀ e ∈ elems, ∀ g, Validator.validate item member object e g = (.ok e, g)) →
      elems ≠ [] → gen ≠ i →
      TypeValidator.validate_type (.frozenSet (some item)) member object
          (.pyFrozenSet i elems) gen = (.ok (.pyFrozenSet gen elems), gen + 1) ∧
        (PyObj.pyFrozenSet gen elems).is (.pyFrozenSet i elems) = false) ∧
    ((∀ e ∈ elems, ∀ g, Validator.validate item member object e g = (.ok e, g)) →
      gen ≠ i →
      TypeValidator.validate_type (.set (some item)) member object
          (.pySet i elems) gen = (.ok (.atorsSet gen elems), gen + 1) ∧
        (PyObj.atorsSet gen elems).is (.pySet i elems) = false) ∧
    (gen ≠ i →
      TypeValidator.validate_type (.set Option.none) member object
          (.pySet i elems) gen = (.ok (.pySet gen elems), gen + 1) ∧
        (PyObj.pySet gen elems).is (.pySet i elems) = false) ∧
    ((∀ p ∈ entries, (∀ g, Validator.validate key_v member object p.1 g = (.ok p.1, g)) ∧
        (∀ g, Validator.validate val_v member object p.2 g = (.ok p.2, g))) →
      gen ≠ i →
      TypeValidator.validate_type (.dict (some (key_v, val_v))) member object
          (.pyDict i entries) gen = (.ok (.atorsDict gen entries), gen + 1) ∧
        (PyObj.atorsDict gen entries).is (.pyDict i entries) = false) ∧
    (gen ≠ i →
      TypeValidator.validate_type (.dict Option.none) member object
          (.pyDict i entries) gen = (.ok (.pyDict gen entries), gen + 1) ∧
        (PyObj.pyDict gen entries).is (.pyDict i entries) = false) := by
  refine ⟨?_, ?_, ?_, ?_, ?_, ?_, ?_⟩
  · intro h
    obtain ⟨g2, hrun⟩ := validateTupleItems_all_self member object elems items elems 0 gen h
    refine ⟨g2, ?_⟩
    have hlen : elems.length = items.length := h.length_eq.symm
    simp only [TypeValidator.validate_type, PyObj.asTupleExact, hlen, ne_eq,
      not_true_eq_false, if_false, hrun]
  · intro h hne hfresh
    have hrun := validateSeqItems_all_self member object item elems gen h hne
    constructor
    · simp only [TypeValidator.validate_type, PyObj.asTupleExact, hrun]
    · simp [PyObj.is, PyObj.objId, hfresh]
  · intro h hne hfresh
    have hrun := validateSeqItems_all_self member object item elems gen h hne
    constructor
    · simp only [TypeValidator.validate_type, PyObj.asFrozenSetExact, hrun]
    · simp [PyObj.is, PyObj.objId, hfresh]
  · intro h hfresh
    have hrun := validateAllItems_all_self member object item elems 0 gen h
    constructor
    · simp only [TypeValidator.validate_type, PyObj.asSet, hrun]
    · simp [PyObj.is, PyObj.objId, hfresh]
  · intro hfresh
    constructor
    · simp only [TypeValidator.validate_type, PyObj.asSet]
    · simp [PyObj.is, PyObj.objId, hfresh]
  · intro h hfresh
    have hrun := validateDictItems_all_self member object key_v val_v entries gen h
    constructor
    · simp only [TypeValidator.validate_type, PyObj.asDict, hrun]
    · simp [PyObj.is, PyObj.objId, hfresh]
  · intro hfresh
    constructor
    · simp only [TypeValidator.validate_type, PyObj.asDict]
    · simp [PyObj.is, PyObj.objId, hfresh]

/-- C2 is false as stated: validating a set through a `Set` container
validator returns a rebuilt set object with a fresh identity, never the
original, even though no element validation rewrites anything. -/
theorem C2_counterexample :
    TypeValidator.validate_type (.set Option.none) Option.none Option.none
        (.pySet 0 [.pyInt 1 7]) 10 = (.ok (.pySet 10 [.pyInt 1 7]), 11) ∧
    (PyObj.pySet 10 [.pyInt 1 7]).is (.pySet 0 [.pyInt 1 7]) = false ∧
    TypeValidator.validate_type (.set (some (.mk .any [] Option.none))) Option.none
        Option.none (.pySet 0 [.pyInt 1 7]) 10 = (.ok (.atorsSet 10 [.pyInt 1 7]), 11) ∧
    Validator.validate (.mk .any [] Option.none) Option.none Option.none (.pyInt 1 7) 10 =
      (.ok (.pyInt 1 7), 10) ∧
    (PyObj.atorsSet 10 [.pyInt 1 7]).is (.pySet 0 [.pyInt 1 7]) = false := by
  refine ⟨?_, rfl, ?_, ?_, rfl⟩
  · simp [TypeValidator.validate_type, PyObj.asSet]
  · simp [TypeValidator.validate_type, PyObj.asSet, validateAllItems, Validator.validate,
      Validator.strict_validate, runValueValidators]
  · simp [Validator.validate, Validator.strict_validate, TypeValidator.validate_type,
      runValueValidators]

/-- Witness for C2 at concrete containers with `Any`-typed elements. -/
theorem C2_witness :
    (∃ g2, TypeValidator.validate_type (.tuple [.mk .any [] Option.none]) Option.none
      Option.none (.pyTuple 0 [.pyInt 1 7]) 10 = (.ok (.pyTuple 0 [.pyInt 1 7]), g2)) ∧
    TypeValidator.validate_type (.varTuple (some (.mk .any [] Option.none))) Option.none
      Option.none (.pyTuple 0 [.pyInt 1 7]) 10 = (.ok (.pyTuple 10 [.pyInt 1 7]), 11) ∧
    TypeValidator.validate_type (.frozenSet (some (.mk .any [] Option.none))) Option.none
      Option.none (.pyFrozenSet 0 [.pyInt 1 7]) 10 = (.ok (.pyFrozenSet 10 [.pyInt 1 7]), 11) ∧
    TypeValidator.validate_type (.set (some (.mk .any [] Option.none))) Option.none
      Option.none (.pySet 0 [.pyInt 1 7]) 10 = (.ok (.atorsSet 10 [.pyInt 1 7]), 11) ∧
    TypeValidator.validate_type
      (.dict (some (.mk .any [] Option.none, .mk .any [] Option.none))) Option.none
      Option.none (.pyDict 0 [(.pyStr 1 "k", .pyInt 2 7)]) 10 =
        (.ok (.atorsDict 10 [(.pyStr 1 "k", .pyInt 2 7)]), 11) := by
  have hany : ∀ (e : PyObj) (g : Nat),
      Validator.validate (.mk .any [] Option.none) Option.none Option.none e g = (.ok e, g) := by
    intro e g
    simp [Validator.validate, Validator.strict_validate, TypeValidator.validate_type,
      runValueValidators]
  have hmain := C2_container_identity Option.none Option.none (.mk .any [] Option.none)
    (.mk .any [] Option.none) (.mk .any [] Option.none) [.mk .any [] Option.none] 0 10
    [.pyInt 1 7] [(.pyStr 1 "k", .pyInt 2 7)]
  refine ⟨?_, ?_, ?_, ?_, ?_⟩
  · exact hmain.1 (List.Forall₂.cons
      (fun g => ⟨.pyInt 1 7, g, hany (.pyInt 1 7) g, rfl⟩) List.Forall₂.nil)
  · exact (hmain.2.1 (fun e _ g => hany e g) (by simp) (by omega)).1
  · exact (hmain.2.2.1 (fun e _ g => hany e g) (by simp) (by omega)).1
  · exact (hmain.2.2.2.1 (fun e _ g => hany e g) (by omega)).1
  · exact (hmain.2.2.2.2.2.1 (fun p _ => ⟨fun g => hany p.1 g, fun g => hany p.2 g⟩)
      (by omega)).1

/-- Pre-read hooks (`member/getattr.rs`); the host callback stands for
both callable variants, whose result is discarded. -/
inductive PreGetattrBehavior : Type where
  | noOp : PreGetattrBehavior
  | callNameObject (f : String → AtorsBase → Except PyErr PyObj) : PreGetattrBehavior

/-- `PreGetattrBehavior::pre_get`. -/
def PreGetattrBehavior.pre_get (b : PreGetattrBehavior) (member_name : String)
    (object : AtorsBase) : Except PyErr Unit :=
  match b with
  | .noOp => .ok ()
  | .callNameObject f => (f member_name object).map (fun _ => ())

/-- Post-read hooks (`member/getattr.rs`); the hook observes the value
and may fail but never replaces it. -/
inductive PostGetattrBehavior : Type where
  | noOp : PostGetattrBehavior
  | callNameObjectValue (f : String → AtorsBase → PyObj → Except PyErr PyObj) :
      PostGetattrBehavior

/-- `PostGetattrBehavior::post_get`. -/
def PostGetattrBehavior.post_get (b : PostGetattrBehavior) (member_name : String)
    (object : AtorsBase) (value : PyObj) : Except PyErr Unit :=
  match b with
  | .noOp => .ok ()
  | .callNameObjectValue f => (f member_name object value).map (fun _ => ())

/-- Pre-write hooks (`member/setattr.rs`): `NoOp`, `Constant` always
rejects, `ReadOnly` rejects when a value is already present, and the
host callback receives the current value. -/
inductive PreSetattrBehavior : Type where
  | noOp : PreSetattrBehavior
  | constant : PreSetattrBehavior
  | readOnly : PreSetattrBehavior
  | callNameObjectValue (f : String → AtorsBase → Option PyObj → Except PyErr PyObj) :
      PreSetattrBehavior

/-- `PreSetattrBehavior::pre_set`. -/
def PreSetattrBehavior.pre_set (b : PreSetattrBehavior) (member_name : String)
    (object : AtorsBase) (current : Option PyObj) : Except PyErr Unit :=
  match b with
  | .noOp => .ok ()
  | .constant => .error (.typeError "Cannot set the value of a constant member")
  | .readOnly =>
    match current with
    | some _ =>
      .error (.typeError "Cannot change the value of an already set read only member")
    | Option.none => .ok ()
  | .callNameObjectValue f => (f member_name object current).map (fun _ => ())

/-- Post-write hooks (`member/setattr.rs`). -/
inductive PostSetattrBehavior : Type where
  | noOp : PostSetattrBehavior
  | callNameObjectOldNew
      (f : String → AtorsBase → Option PyObj → PyObj → Except PyErr PyObj) :
      PostSetattrBehavior

/-- `PostSetattrBehavior::post_set`. -/
def PostSetattrBehavior.post_set (b : PostSetattrBehavior) (member_name : String)
    (object : AtorsBase) (old : Option PyObj) (new : PyObj) : Except PyErr Unit :=
  match b with
  | .noOp => .ok ()
  | .callNameObjectOldNew f => (f member_name object old new).map (fun _ => ())

/-- Delete strategies (`member/delattr.rs`). -/
inductive DelattrBehavior : Type where
  | slot : DelattrBehavior
  | undeletable : DelattrBehavior
deriving DecidableEq

/-- Default strategies (`member/default.rs`); `Static` holds a
preconstructed value returned by reference, and the host callback stands
for the callable variants.  `ValidatorDelegate` and `ObjectMethod` call
back into Python and are outside the embedded fragment. -/
inductive DefaultBehavior : Type where
  | noDefault : DefaultBehavior
  | static (value : PyObj) : DefaultBehavior
  | call (f : Unit → Except PyErr PyObj) : DefaultBehavior

/-- The `NoDefault` error message, naming the member and the instance. -/
def no_default_error (member_name object_repr : String) : PyErr :=
  .typeError ("The member " ++ member_name ++ " from " ++ object_repr ++
    " value is unset and has no default")

/-- `DefaultBehavior::default`. -/
def DefaultBehavior.default (b : DefaultBehavior) (member_name : String)
    (object_repr : String) : Except PyErr PyObj :=
  match b with
  | .noDefault => .error (no_default_error member_name object_repr)
  | .static value => .ok value
  | .call f => f ()

/-- An attribute descriptor (`Member` in `member.rs`): name, storage
slot index, the hook behaviors, the default strategy and the validator
(the optional metadata map is not needed by any claim). -/
structure Member : Type where
  name : String
  slot_index : Nat
  pre_getattr : PreGetattrBehavior
  post_getattr : PostGetattrBehavior
  pre_setattr : PreSetattrBehavior
  post_setattr : PostSetattrBehavior
  delattr : DelattrBehavior
  default : DefaultBehavior
  validator : Validator

/-- `Member::index`. -/
def Member.index (m : Member) : Nat := m.slot_index

/-- `Member::clone_with_index`: an otherwise identical copy with a new
storage index. -/
def Member.clone_with_index (m : Member) (new_index : Nat) : Member :=
  { m with slot_index := new_index }

/-- Observable steps of the descriptor protocol, recorded in execution
order by the traced operations below. -/
inductive Event : Type where
  | readSlot (index : Nat) (value : Option PyObj) : Event
  | preSetHook (current : Option PyObj) : Event
  | validateValue (value : PyObj) : Event
  | storeSlot (index : Nat) (value : PyObj) : Event
  | postSetHook (old : Option PyObj) (new : PyObj) : Event
  | preGetHook : Event
  | defaultInvoked : Event
  | postGetHook (value : PyObj) : Event
  | deleteSlot (index : Nat) : Event

/-- Frozen-instance write rejection (`member.rs`, `__set__`). -/
def frozen_error (object_repr : String) : PyErr :=
  .typeError ("Cannot modify " ++ object_repr ++ " which is frozen.")

/-- Wrapper for a pre-write hook failure. -/
def pre_set_fail_error (member_name object_repr : String) (cause : PyErr) : PyErr :=
  err_with_cause (.typeError ("pre-set failed for member " ++ member_name ++ " of " ++
    object_repr)) cause

/-- Wrapper for a write-validation failure. -/
def set_validation_fail_error (member_name object_repr : String) (cause : PyErr) : PyErr :=
  err_with_cause (.typeError ("Validation failed for member " ++ member_name ++ " of " ++
    object_repr)) cause

/-- Wrapper for a post-write hook failure. -/
def post_set_fail_error (member_name object_repr : String) (cause : PyErr) : PyErr :=
  err_with_cause (.typeError ("post-set failed for member " ++ member_name ++ " of " ++
    object_repr)) cause

/-- Wrapper for a pre-read hook failure. -/
def pre_get_fail_error (member_name object_repr : String) (cause : PyErr) : PyErr :=
  err_with_cause (.typeError ("pre-get failed for member " ++ member_name ++ " of " ++
    object_repr)) cause

/-- Wrapper for a default-strategy failure. -/
def default_fail_error (member_name object_repr : String) (cause : PyErr) : PyErr :=
  err_with_cause (.typeError ("Failed to get default value for member " ++ member_name ++
    " of " ++ object_repr)) cause

/-- Wrapper for a failed validation of a default value. -/
def default_validation_fail_error (member_name object_repr : String) (cause : PyErr) : PyErr :=
  err_with_cause (.typeError ("Failed to validate default value for member " ++
    member_name ++ " of " ++ object_repr)) cause

/-- Wrapper for a post-read hook failure. -/
def post_get_fail_error (member_name object_repr : String) (cause : PyErr) : PyErr :=
  err_with_cause (.typeError ("post-get failed for member " ++ member_name ++ " of " ++
    object_repr)) cause

/-- `Member::__set__` (`member.rs`): read the current slot value; check
the frozen flag; run the pre-write hook with the current value; validate
the incoming value; store it; run the post-write hook with the old and
new values.  Result, final state, allocator counter and event trace. -/
def Member.set (m : Member) (object_repr : String) (object : AtorsBase) (value : PyObj)
    (gen : Nat) : (Except PyErr Unit) × AtorsBase × Nat × List Event :=
  let current := get_slot object m.slot_index
  if object.frozen then
    (.error (frozen_error object_repr), object, gen, [Event.readSlot m.slot_index current])
  else
    match m.pre_setattr.pre_set m.name object current with
    | .error e =>
      (.error (pre_set_fail_error m.name object_repr e), object, gen,
        [Event.readSlot m.slot_index current, Event.preSetHook current])
    | .ok _ =>
      match Validator.validate m.validator (some m.name) (some object_repr) value gen with
      | (.error e, g2) =>
        (.error (set_validation_fail_error m.name object_repr e), object, g2,
          [Event.readSlot m.slot_index current, Event.preSetHook current,
            Event.validateValue value])
      | (.ok new, g2) =>
        let object2 := set_slot object m.slot_index new
        match m.post_setattr.post_set m.name object2 current new with
        | .error e =>
          (.error (post_set_fail_error m.name object_repr e), object2, g2,
            [Event.readSlot m.slot_index current, Event.preSetHook current,
              Event.validateValue value, Event.storeSlot m.slot_index new,
              Event.postSetHook current new])
        | .ok _ =>
          (.ok (), object2, g2,
            [Event.readSlot m.slot_index current, Event.preSetHook current,
              Event.validateValue value, Event.storeSlot m.slot_index new,
              Event.postSetHook current new])

/-- `Member::__get__` (`member.rs`), instance access: run the pre-read
hook; read the slot; when unset, materialize the default, validate it,
store it; run the post-read hook with the produced value, which the hook
can observe but not replace. -/
def Member.get (m : Member) (object_repr : String) (object : AtorsBase) (gen : Nat) :
    (Except PyErr PyObj) × AtorsBase × Nat × List Event :=
  match m.pre_getattr.pre_get m.name object with
  | .error e =>
    (.error (pre_get_fail_error m.name object_repr e), object, gen, [Event.preGetHook])
  | .ok _ =>
    match get_slot object m.slot_index with
    | some v =>
      match m.post_getattr.post_get m.name object v with
      | .error e =>
        (.error (post_get_fail_error m.name object_repr e), object, gen,
          [Event.preGetHook, Event.readSlot m.slot_index (some v), Event.postGetHook v])
      | .ok _ =>
        (.ok v, object, gen,
          [Event.preGetHook, Event.readSlot m.slot_index (some v), Event.postGetHook v])
    | Option.none =>
      match m.default.default m.name object_repr with
      | .error e =>
        (.error (default_fail_error m.name object_repr e), object, gen,
          [Event.preGetHook, Event.readSlot m.slot_index Option.none,
            Event.defaultInvoked])
      | .ok d =>
        match Validator.validate m.validator (some m.name) (some object_repr) d gen with
        | (.error e, g2) =>
          (.error (default_validation_fail_error m.name object_repr e), object, g2,
            [Event.preGetHook, Event.readSlot m.slot_index Option.none,
              Event.defaultInvoked, Event.validateValue d])
        | (.ok new, g2) =>
          let object2 := set_slot object m.slot_index new
          match m.post_getattr.post_get m.name object2 new with
          | .error e =>
            (.error (post_get_fail_error m.name object_repr e), object2, g2,
              [Event.preGetHook, Event.readSlot m.slot_index Option.none,
                Event.defaultInvoked, Event.validateValue d,
                Event.storeSlot m.slot_index new, Event.postGetHook new])
          | .ok _ =>
            (.ok new, object2, g2,
              [Event.preGetHook, Event.readSlot m.slot_index Option.none,
                Event.defaultInvoked, Event.validateValue d,
                Event.storeSlot m.slot_index new, Event.postGetHook new])

/-- `DelattrBehavior::del` (`member/delattr.rs`): clear the slot, or
reject unconditionally for undeletable attributes.  No frozen check
exists anywhere on this path. -/
def DelattrBehavior.del (b : DelattrBehavior) (member_name : String) (index : Nat)
    (object_repr : String) (object : AtorsBase) :
    (Except PyErr Unit) × AtorsBase × List Event :=
  match b with
  | .slot => (.ok (), del_slot object index, [Event.deleteSlot index])
  | .undeletable =>
    (.error (.typeError ("The member " ++ member_name ++ " from " ++ object_repr ++
      " cannot be deleted")), object, [])

/-- `Member::__delete__` (`member.rs`): delegate to the delete
strategy. -/
def Member.del (m : Member) (object_repr : String) (object : AtorsBase) :
    (Except PyErr Unit) × AtorsBase × List Event :=
  m.delattr.del m.name m.slot_index object_repr object

theorem get_slot_set_slot (object : AtorsBase) (index : Nat) (value : PyObj)
    (h : index < object.slots.length) :
    get_slot (set_slot object index value) index = some value := by
  simp [get_slot, set_slot, List.getD, List.getElem?_set_self h]

theorem get_slot_del_slot (object : AtorsBase) (index : Nat) :
    get_slot (del_slot object index) index = Option.none := by
  by_cases h : index < object.slots.length
  · simp [get_slot, del_slot, List.getD, List.getElem?_set_self h]
  · have hlen : (object.slots.set index Option.none).length ≤ index := by
      simp [List.length_set]
      omega
    simp [get_slot, del_slot, List.getD, List.getElem?_eq_none hlen]

theorem set_slot_frozen (object : AtorsBase) (index : Nat) (value : PyObj) :
    (set_slot object index value).frozen = object.frozen := rfl

theorem del_slot_frozen (object : AtorsBase) (index : Nat) :
    (del_slot object index).frozen = object.frozen := rfl

/-- C3 (amended).  The write path performs, in order: read the current
slot value; if the instance is frozen, fail before any further work —
before the pre-write hook, before validation and before storing; run the
pre-write hook with the current value; validate the incoming value;
store it; run the post-write hook with the old and new values.  The
event traces list exactly the steps performed in each outcome. -/
theorem C3_write_order (m : Member) (object_repr : String) (object : AtorsBase)
    (value : PyObj) (gen : Nat) :
    (object.frozen = true →
      Member.set m object_repr object value gen =
        (.error (frozen_error object_repr), object, gen,
          [Event.readSlot m.slot_index (get_slot object m.slot_index)])) ∧
    (object.frozen = false →
      ∀ e, m.pre_setattr.pre_set m.name object (get_slot object m.slot_index) = .error e →
      Member.set m object_repr object value gen =
        (.error (pre_set_fail_error m.name object_repr e), object, gen,
          [Event.readSlot m.slot_index (get_slot object m.slot_index),
            Event.preSetHook (get_slot object m.slot_index)])) ∧
    (object.frozen = false →
      m.pre_setattr.pre_set m.name object (get_slot object m.slot_index) = .ok () →
      ∀ e g2, Validator.validate m.validator (some m.name) (some object_repr) value gen =
        (.error e, g2) →
      Member.set m object_repr object value gen =
        (.error (set_validation_fail_error m.name object_repr e), object, g2,
          [Event.readSlot m.slot_index (get_slot object m.slot_index),
            Event.preSetHook (get_slot object m.slot_index),
            Event.validateValue value])) ∧
    (object.frozen = false →
      m.pre_setattr.pre_set m.name object (get_slot object m.slot_index) = .ok () →
      ∀ new g2, Validator.validate m.validator (some m.name) (some object_repr) value gen =
        (.ok new, g2) →
      m.post_setattr.post_set m.name (set_slot object m.slot_index new)
        (get_slot object m.slot_index) new = .ok () →
      Member.set m object_repr object value gen =
        (.ok (), set_slot object m.slot_index new, g2,
          [Event.readSlot m.slot_index (get_slot object m.slot_index),
            Event.preSetHook (get_slot object m.slot_index),
            Event.validateValue value,
            Event.storeSlot m.slot_index new,
            Event.postSetHook (get_slot object m.slot_index) new])) := by
  refine ⟨?_, ?_, ?_, ?_⟩
  · intro hfro
    simp only [Member.set, hfro, if_true]
  · intro hfro e hpre
    simp only [Member.set, hfro, Bool.false_eq_true, if_false, hpre]
  · intro hfro hpre e g2 hval
    simp only [Member.set, hfro, Bool.false_eq_true, if_false, hpre, hval]
  · intro hfro hpre new g2 hval hpost
    simp only [Member.set, hfro, Bool.false_eq_true, if_false, hpre, hval, hpost]

/-- A concrete member whose pre-write hook is `Constant`, used to
exhibit the order of the frozen check and the pre-write hook. -/
def c3Member : Member :=
  { name := "x", slot_index := 0, pre_getattr := .noOp, post_getattr := .noOp,
    pre_setattr := .constant, post_setattr := .noOp, delattr := .slot,
    default := .noDefault, validator := .mk .any [] Option.none }

/-- A concrete frozen instance with one (empty) slot. -/
def c3Obj : AtorsBase :=
  { frozen := true, notification_enabled := false, slots := [Option.none] }

/-- C3 is false as stated: on a frozen instance the pre-write hook never
runs — the write fails straight after the slot read, so the trace holds
no pre-write-hook event, while the claim requires the hook to run with
the current value before the frozen failure. -/
theorem C3_counterexample :
    Member.set c3Member "A()" c3Obj (.pyInt 9 1) 0 =
      (.error (frozen_error "A()"), c3Obj, 0, [Event.readSlot 0 Option.none]) ∧
    Event.preSetHook Option.none ∉ (Member.set c3Member "A()" c3Obj (.pyInt 9 1) 0).2.2.2 := by
  constructor
  · simp only [Member.set, c3Member, c3Obj, get_slot]
    rfl
  · have h : (Member.set c3Member "A()" c3Obj (.pyInt 9 1) 0).2.2.2 =
        [Event.readSlot 0 Option.none] := by
      simp only [Member.set, c3Member, c3Obj, get_slot]
      rfl
    rw [h]
    simp

/-- A concrete unfrozen instance with one empty slot. -/
def c3PlainObj : AtorsBase :=
  { frozen := false, notification_enabled := false, slots := [Option.none] }

/-- A copy of `c3Member` with the no-op pre-write hook. -/
def c3NoOpMember : Member := { c3Member with pre_setattr := .noOp }

/-- Witness for C3: the frozen and the successful write at concrete
inputs. -/
theorem C3_witness :
    Member.set c3Member "A()" c3Obj (.pyInt 9 1) 0 =
      (.error (frozen_error "A()"), c3Obj, 0, [Event.readSlot 0 Option.none]) ∧
    Member.set c3NoOpMember "A()" c3PlainObj (.pyInt 9 1) 0 =
      (.ok (), set_slot c3PlainObj 0 (.pyInt 9 1), 0,
        [Event.readSlot 0 Option.none, Event.preSetHook Option.none,
          Event.validateValue (.pyInt 9 1), Event.storeSlot 0 (.pyInt 9 1),
          Event.postSetHook Option.none (.pyInt 9 1)]) := by
  constructor
  · exact (C3_write_order c3Member "A()" c3Obj (.pyInt 9 1) 0).1 rfl
  · have h := (C3_write_order c3NoOpMember "A()" c3PlainObj (.pyInt 9 1) 0).2.2.2 rfl rfl
      (.pyInt 9 1) 0
      (by simp [c3NoOpMember, c3Member, Validator.validate, Validator.strict_validate,
        TypeValidator.validate_type, runValueValidators])
      rfl
    have hidx : c3NoOpMember.slot_index = 0 := rfl
    rw [hidx] at h
    have hslot : get_slot c3PlainObj 0 = Option.none := rfl
    rw [hslot] at h
    exact h

/-- The `Undeletable` rejection error (`member/delattr.rs`). -/
def undeletable_error (member_name object_repr : String) : PyErr :=
  .typeError ("The member " ++ member_name ++ " from " ++ object_repr ++
    " cannot be deleted")

/-- The `ReadOnly` rejection raised by the pre-write hook. -/
def read_only_error : PyErr :=
  .typeError "Cannot change the value of an already set read only member"

/-- C6.  For an attribute with the `ReadOnly` pre-write behavior on an
unfrozen instance: a write to an unset slot succeeds and stores the
validated value; a write when the slot holds a value fails and leaves
the state unchanged; a rejected delete (`Undeletable`) leaves the slot
set, so a subsequent write still fails; a successful delete (`Slot`)
clears the slot, so the next write succeeds again. -/
theorem C6_readonly_semantics (m : Member) (object_repr : String) (object : AtorsBase)
    (value : PyObj) (gen : Nat)
    (hro : m.pre_setattr = .readOnly)
    (hfro : object.frozen = false) :
    (get_slot object m.slot_index = Option.none →
      ∀ new g2, Validator.validate m.validator (some m.name) (some object_repr) value gen =
        (.ok new, g2) →
      m.post_setattr.post_set m.name (set_slot object m.slot_index new) Option.none new =
        .ok () →
      (Member.set m object_repr object value gen).1 = .ok () ∧
      (Member.set m object_repr object value gen).2.1 = set_slot object m.slot_index new ∧
      (m.slot_index < object.slots.length →
        get_slot (Member.set m object_repr object value gen).2.1 m.slot_index = some new)) ∧
    (∀ c, get_slot object m.slot_index = some c →
      Member.set m object_repr object value gen =
        (.error (pre_set_fail_error m.name object_repr read_only_error), object, gen,
          [Event.readSlot m.slot_index (some c), Event.preSetHook (some c)])) ∧
    (m.delattr = .undeletable → ∀ c, get_slot object m.slot_index = some c →
      Member.del m object_repr object =
        (.error (undeletable_error m.name object_repr), object, []) ∧
      (Member.set m object_repr (Member.del m object_repr object).2.1 value gen).1 =
        .error (pre_set_fail_error m.name object_repr read_only_error)) ∧
    (m.delattr = .slot →
      Member.del m object_repr object =
        (.ok (), del_slot object m.slot_index, [Event.deleteSlot m.slot_index]) ∧
      get_slot (del_slot object m.slot_index) m.slot_index = Option.none ∧
      (∀ new g2,
        Validator.validate m.validator (some m.name) (some object_repr) value gen =
          (.ok new, g2) →
        m.post_setattr.post_set m.name
          (set_slot (del_slot object m.slot_index) m.slot_index new) Option.none new =
            .ok () →
        (Member.set m object_repr (del_slot object m.slot_index) value gen).1 = .ok ())) := by
  refine ⟨?_, ?_, ?_, ?_⟩
  · intro hslot new g2 hval hpost
    have hpre : m.pre_setattr.pre_set m.name object Option.none = .ok () := by
      rw [hro]
      rfl
    simp only [Member.set, hslot, hfro, Bool.false_eq_true, if_false, hpre, hval, hpost]
    exact ⟨trivial, trivial, fun h => get_slot_set_slot object m.slot_index new h⟩
  · intro c hslot
    have hpre : m.pre_setattr.pre_set m.name object (some c) =
        .error read_only_error := by
      rw [hro]
      rfl
    simp only [Member.set, hslot, hfro, Bool.false_eq_true, if_false, hpre]
  · intro hdel c hslot
    have hd : Member.del m object_repr object =
        (.error (undeletable_error m.name object_repr), object, []) := by
      simp only [Member.del, DelattrBehavior.del, hdel, undeletable_error]
    refine ⟨hd, ?_⟩
    rw [hd]
    have hpre : m.pre_setattr.pre_set m.name object (some c) =
        .error read_only_error := by
      rw [hro]
      rfl
    simp only [Member.set, hslot, hfro, Bool.false_eq_true, if_false, hpre]
  · intro hdel
    have hd : Member.del m object_repr object =
        (.ok (), del_slot object m.slot_index, [Event.deleteSlot m.slot_index]) := by
      simp only [Member.del, DelattrBehavior.del, hdel]
    have hcleared := get_slot_del_slot object m.slot_index
    refine ⟨hd, hcleared, ?_⟩
    intro new g2 hval hpost
    have hfro2 : (del_slot object m.slot_index).frozen = false := by
      rw [del_slot_frozen]
      exact hfro
    have hpre : m.pre_setattr.pre_set m.name (del_slot object m.slot_index)
        Option.none = .ok () := by
      rw [hro]
      rfl
    simp only [Member.set, hcleared, hfro2, Bool.false_eq_true, if_false, hpre, hval, hpost]

/-- A concrete read-only member over an `Any` validator. -/
def c6Member : Member :=
  { name := "x", slot_index := 0, pre_getattr := .noOp, post_getattr := .noOp,
    pre_setattr := .readOnly, post_setattr := .noOp, delattr := .undeletable,
    default := .noDefault, validator := .mk .any [] Option.none }

/-- A concrete unfrozen instance with one empty slot. -/
def c6ObjEmpty : AtorsBase :=
  { frozen := false, notification_enabled := false, slots := [Option.none] }

/-- A concrete unfrozen instance whose single slot holds a value. -/
def c6ObjFull : AtorsBase :=
  { frozen := false, notification_enabled := false, slots := [some (.pyInt 8 0)] }

/-- A copy of `c6Member` with the `Slot` delete strategy. -/
def c6SlotMember : Member := { c6Member with delattr := .slot }

/-- Witness for C6 at concrete states: empty-slot write succeeds,
occupied-slot write fails, rejected delete keeps the write failing, and
the `Slot` delete re-enables writing. -/
theorem C6_witness :
    (Member.set c6Member "A()" c6ObjEmpty (.pyInt 9 1) 0).1 = .ok () ∧
    (Member.set c6Member "A()" c6ObjFull (.pyInt 9 1) 0).1 =
      .error (pre_set_fail_error "x" "A()" read_only_error) ∧
    (Member.del c6Member "A()" c6ObjFull).1 = .error (undeletable_error "x" "A()") ∧
    (Member.set c6SlotMember "A()"
      (Member.del c6SlotMember "A()" c6ObjFull).2.1 (.pyInt 9 1) 0).1 = .ok () := by
  have hany : ∀ (e : PyObj) (g : Nat),
      Validator.validate (.mk .any [] Option.none) (some "x") (some "A()") e g =
        (.ok e, g) := by
    intro e g
    simp [Validator.validate, Validator.strict_validate, TypeValidator.validate_type,
      runValueValidators]
  refine ⟨?_, ?_, ?_, ?_⟩
  · exact ((C6_readonly_semantics c6Member "A()" c6ObjEmpty (.pyInt 9 1) 0 rfl rfl).1
      rfl (.pyInt 9 1) 0 (hany (.pyInt 9 1) 0) rfl).1
  · rw [((C6_readonly_semantics c6Member "A()" c6ObjFull (.pyInt 9 1) 0 rfl rfl).2.1
      (.pyInt 8 0) rfl)]
    rfl
  · have h := ((C6_readonly_semantics c6Member "A()" c6ObjFull (.pyInt 9 1) 0 rfl
      rfl).2.2.1 rfl (.pyInt 8 0) rfl).1
    rw [h]
    rfl
  · have h := ((C6_readonly_semantics c6SlotMember "A()" c6ObjFull
      (.pyInt 9 1) 0 rfl rfl).2.2.2 rfl)
    have hw := h.2.2 (.pyInt 9 1) 0 (hany (.pyInt 9 1) 0) rfl
    have hd : (Member.del c6SlotMember "A()" c6ObjFull).2.1 = del_slot c6ObjFull 0 := by
      rw [h.1]
      rfl
    rw [hd]
    exact hw

/-- C7.  Reading through the descriptor: with `NoDefault` and an unset
slot the read always fails, and the error carries the member name and
the instance representation (either the wrapped pre-read hook failure or
the wrapped no-default failure).  With a `Static` default and an unset
slot, the default is validated, stored in the slot and returned.  A read
that finds the slot populated returns the stored value, leaves the state
unchanged and never invokes the default strategy. -/
theorem C7_read_defaults (m : Member) (object_repr : String) (object object2 : AtorsBase)
    (gen gen2 : Nat) :
    (m.default = .noDefault → get_slot object m.slot_index = Option.none →
      ((Member.get m object_repr object gen).1 =
          .error (default_fail_error m.name object_repr
            (no_default_error m.name object_repr)) ∨
        ∃ c, (Member.get m object_repr object gen).1 =
          .error (pre_get_fail_error m.name object_repr c))) ∧
    (∀ d new g2, m.default = .static d → get_slot object m.slot_index = Option.none →
      m.pre_getattr.pre_get m.name object = .ok () →
      Validator.validate m.validator (some m.name) (some object_repr) d gen = (.ok new, g2) →
      m.post_getattr.post_get m.name (set_slot object m.slot_index new) new = .ok () →
      Member.get m object_repr object gen =
        (.ok new, set_slot object m.slot_index new, g2,
          [Event.preGetHook, Event.readSlot m.slot_index Option.none,
            Event.defaultInvoked, Event.validateValue d,
            Event.storeSlot m.slot_index new, Event.postGetHook new]) ∧
      (m.slot_index < object.slots.length →
        get_slot (set_slot object m.slot_index new) m.slot_index = some new)) ∧
    (∀ w, get_slot object2 m.slot_index = some w →
      m.pre_getattr.pre_get m.name object2 = .ok () →
      m.post_getattr.post_get m.name object2 w = .ok () →
      Member.get m object_repr object2 gen2 =
        (.ok w, object2, gen2,
          [Event.preGetHook, Event.readSlot m.slot_index (some w),
            Event.postGetHook w]) ∧
      Event.defaultInvoked ∉ (Member.get m object_repr object2 gen2).2.2.2) := by
  refine ⟨?_, ?_, ?_⟩
  · intro hdef hslot
    rcases hpre : m.pre_getattr.pre_get m.name object with e | u
    · right
      exact ⟨e, by simp only [Member.get, hpre]⟩
    · left
      have hd : m.default.default m.name object_repr =
          .error (no_default_error m.name object_repr) := by
        rw [hdef]
        rfl
      simp only [Member.get, hpre, hslot, hd]
  · intro d new g2 hdef hslot hpre hval hpost
    have hd : m.default.default m.name object_repr = .ok d := by
      rw [hdef]
      rfl
    constructor
    · simp only [Member.get, hpre, hslot, hd, hval, hpost]
    · intro h
      exact get_slot_set_slot object m.slot_index new h
  · intro w hslot hpre hpost
    have hres : Member.get m object_repr object2 gen2 =
        (.ok w, object2, gen2,
          [Event.preGetHook, Event.readSlot m.slot_index (some w),
            Event.postGetHook w]) := by
      simp only [Member.get, hpre, hslot, hpost]
    refine ⟨hres, ?_⟩
    rw [hres]
    simp

/-- A concrete member with no default over an `Any` validator. -/
def c7Member : Member :=
  { name := "x", slot_index := 0, pre_getattr := .noOp, post_getattr := .noOp,
    pre_setattr := .noOp, post_setattr := .noOp, delattr := .slot,
    default := .noDefault, validator := .mk .any [] Option.none }

/-- A copy of `c7Member` with a static default. -/
def c7StaticMember : Member := { c7Member with default := .static (.pyInt 4 7) }

/-- A concrete unfrozen instance with one empty slot. -/
def c7Obj : AtorsBase :=
  { frozen := false, notification_enabled := false, slots := [Option.none] }

/-- Witness for C7 at concrete states: the no-default read fails naming
member and instance, the static default materializes once, and the
follow-up read returns the stored value without the default strategy. -/
theorem C7_witness :
    ((Member.get c7Member "A()" c7Obj 0).1 =
        .error (default_fail_error "x" "A()" (no_default_error "x" "A()")) ∨
      ∃ c, (Member.get c7Member "A()" c7Obj 0).1 =
        .error (pre_get_fail_error "x" "A()" c)) ∧
    Member.get c7StaticMember "A()" c7Obj 0 =
      (.ok (.pyInt 4 7), set_slot c7Obj 0 (.pyInt 4 7), 0,
        [Event.preGetHook, Event.readSlot 0 Option.none, Event.defaultInvoked,
          Event.validateValue (.pyInt 4 7), Event.storeSlot 0 (.pyInt 4 7),
          Event.postGetHook (.pyInt 4 7)]) ∧
    Member.get c7StaticMember "A()" (set_slot c7Obj 0 (.pyInt 4 7)) 0 =
      (.ok (.pyInt 4 7), set_slot c7Obj 0 (.pyInt 4 7), 0,
        [Event.preGetHook, Event.readSlot 0 (some (.pyInt 4 7)),
          Event.postGetHook (.pyInt 4 7)]) ∧
    Event.defaultInvoked ∉
      (Member.get c7StaticMember "A()" (set_slot c7Obj 0 (.pyInt 4 7)) 0).2.2.2 := by
  have hany : ∀ (e : PyObj) (g : Nat),
      Validator.validate (.mk .any [] Option.none) (some "x") (some "A()") e g =
        (.ok e, g) := by
    intro e g
    simp [Validator.validate, Validator.strict_validate, TypeValidator.validate_type,
      runValueValidators]
  have hsecond := (C7_read_defaults c7StaticMember "A()" c7Obj
    (set_slot c7Obj 0 (.pyInt 4 7)) 0 0).2.2 (.pyInt 4 7)
    (get_slot_set_slot c7Obj 0 (.pyInt 4 7) (by simp [c7Obj])) rfl rfl
  refine ⟨?_, ?_, ?_, ?_⟩
  · exact (C7_read_defaults c7Member "A()" c7Obj c7Obj 0 0).1 rfl rfl
  · exact ((C7_read_defaults c7StaticMember "A()" c7Obj c7Obj 0 0).2.1 (.pyInt 4 7)
      (.pyInt 4 7) 0 rfl rfl rfl (hany (.pyInt 4 7) 0) rfl).1
  · exact hsecond.1
  · exact hsecond.2

/-- C10.  Deleting an attribute whose delete strategy is `Slot` clears
the slot and succeeds even when the instance is frozen: unlike the write
path, the delete path performs no frozen check at all. -/
theorem C10_delete_ignores_frozen (m : Member) (object_repr : String) (object : AtorsBase)
    (hdel : m.delattr = .slot) (hfro : object.frozen = true) :
    Member.del m object_repr object =
      (.ok (), del_slot object m.slot_index, [Event.deleteSlot m.slot_index]) ∧
    get_slot (del_slot object m.slot_index) m.slot_index = Option.none ∧
    (del_slot object m.slot_index).frozen = true := by
  refine ⟨?_, get_slot_del_slot object m.slot_index, ?_⟩
  · simp only [Member.del, DelattrBehavior.del, hdel]
  · rw [del_slot_frozen]
    exact hfro

/-- A concrete frozen instance whose single slot holds a value. -/
def c10Obj : AtorsBase :=
  { frozen := true, notification_enabled := false, slots := [some (.pyInt 8 0)] }

/-- A concrete member with the `Slot` delete strategy. -/
def c10Member : Member :=
  { name := "x", slot_index := 0, pre_getattr := .noOp, post_getattr := .noOp,
    pre_setattr := .noOp, post_setattr := .noOp, delattr := .slot,
    default := .noDefault, validator := .mk .any [] Option.none }

/-- Witness for C10: deleting on a frozen instance succeeds and clears
the slot. -/
theorem C10_witness :
    Member.del c10Member "A()" c10Obj = (.ok (), del_slot c10Obj 0, [Event.deleteSlot 0]) ∧
    get_slot (del_slot c10Obj 0) 0 = Option.none ∧
    (del_slot c10Obj 0).frozen = true :=
  C10_delete_ignores_frozen c10Member "A()" c10Obj rfl rfl

/-- The index-collection pass of `create_ators_subclass` (`meta.rs`):
walk the inherited members, recording each first-claimed index as
occupied and every later claimant of an already-occupied index as a
conflict (conflicting members do not re-claim their index). -/
def collectConflicts : List (String × Member) → List Nat →
    (List Nat × List (String × Member))
  | [], occ => (occ, [])
  | (k, m) :: rest, occ =>
    if occ.contains m.slot_index then
      let r := collectConflicts rest occ
      (r.1, (k, m) :: r.2)
    else
      collectConflicts rest (m.slot_index :: occ)

/-- The conflict-resolution pass: each colliding member is cloned with a
freshly allocated index from the pool; exhaustion is mapped to the
too-many-members error (the source interpolates the member name into the
message at this point). -/
def resolveConflictsLoop (f : FreeSlotIndexFactory) :
    List (String × Member) → Except PyErr (List (String × Member) × FreeSlotIndexFactory)
  | [] => .ok ([], f)
  | (_, m) :: rest =>
    match f.nextIndex with
    | .error () =>
      .error (.typeError ("Class " ++ m.name ++ " has more than 255 members"))
    | .ok (i, f2) =>
      match resolveConflictsLoop f2 rest with
      | .error e => .error e
      | .ok (out, f3) => .ok ((m.name, m.clone_with_index i) :: out, f3)

/-- `members.extend(conflict_free_members)`: replace each member whose
name was re-resolved by its clone. -/
def applyResolved (members resolved : List (String × Member)) : List (String × Member) :=
  members.map (fun p =>
    match resolved.lookup p.1 with
    | some m2 => (p.1, m2)
    | Option.none => p)

/-- The collision-resolution slice of `create_ators_subclass`: collect
occupied indices and conflicts over the inherited members, resolve each
conflict with a fresh index from the pool seeded with the occupied set,
and install the clones in place of the originals. -/
def resolve_index_conflicts (members : List (String × Member)) :
    Except PyErr (List (String × Member)) :=
  let r := collectConflicts members []
  match resolveConflictsLoop { occupied := r.1, next_index := 0 } r.2 with
  | .error e => .error e
  | .ok (resolved, _) => .ok (applyResolved members resolved)

/-- C9.  Two unrelated base types each contribute an attribute at the
same slot index `i`: construction detects the collision, keeps the first
claimant's descriptor untouched, and installs for the second a clone
carrying a fresh free index `j ≠ i` while every other field of the clone
equals the original; the resolved set thus has pairwise distinct indices
while the colliding base descriptor itself still carries `i`. -/
theorem C9_collision_resolution (ka kb : String) (ma mb : Member) (i : Nat)
    (hia : ma.slot_index = i) (hib : mb.slot_index = i) (hi : i ≤ 255)
    (hka : ka = ma.name) (hkb : kb = mb.name) (hne : ma.name ≠ mb.name) :
    ∃ j, resolve_index_conflicts [(ka, ma), (kb, mb)] =
        .ok [(ka, ma), (kb, mb.clone_with_index j)] ∧
      j ≠ i ∧
      (mb.clone_with_index j).slot_index = j ∧
      (mb.clone_with_index j).name = mb.name ∧
      (mb.clone_with_index j).pre_getattr = mb.pre_getattr ∧
      (mb.clone_with_index j).post_getattr = mb.post_getattr ∧
      (mb.clone_with_index j).pre_setattr = mb.pre_setattr ∧
      (mb.clone_with_index j).post_setattr = mb.post_setattr ∧
      (mb.clone_with_index j).delattr = mb.delattr ∧
      (mb.clone_with_index j).default = mb.default ∧
      (mb.clone_with_index j).validator = mb.validator ∧
      mb.slot_index = i ∧
      ma.slot_index ≠ (mb.clone_with_index j).slot_index := by
  have hcc : collectConflicts [(ka, ma), (kb, mb)] [] = ([i], [(kb, mb)]) := by
    simp only [collectConflicts, hia, hib, List.contains, List.elem_eq_mem]
    simp
  have hbeq : (ma.name == mb.name) = false := beq_eq_false_iff_ne.mpr hne
  have hlookup_a : ([(mb.name, mb.clone_with_index (if i = 0 then 1 else 0))]).lookup ka =
      Option.none := by
    rw [hka]
    simp [List.lookup, hbeq]
  have hlookup_b : ([(mb.name, mb.clone_with_index (if i = 0 then 1 else 0))]).lookup kb =
      some (mb.clone_with_index (if i = 0 then 1 else 0)) := by
    rw [hkb]
    simp [List.lookup]
  have hnext : FreeSlotIndexFactory.nextIndex { occupied := [i], next_index := 0 } =
      .ok ((if i = 0 then 1 else 0),
        { occupied := (if i = 0 then 1 else 0) :: [i],
          next_index := (if i = 0 then 1 else 0) }) := by
    by_cases h0 : i = 0
    · subst h0
      unfold FreeSlotIndexFactory.nextIndex
      simp only [List.contains, List.elem_eq_mem]
      unfold FreeSlotIndexFactory.nextIndex
      simp [List.contains, List.elem_eq_mem]
    · unfold FreeSlotIndexFactory.nextIndex
      have hc : (([i] : List Nat).contains 0) = false := by
        simp [List.contains, List.elem_eq_mem]
        omega
      simp only [hc, Bool.false_eq_true, if_false]
      simp [h0]
  refine ⟨if i = 0 then 1 else 0, ?_, ?_, rfl, rfl, rfl, rfl, rfl, rfl, rfl, rfl, rfl,
    hib, ?_⟩
  · simp only [resolve_index_conflicts, hcc, resolveConflictsLoop, hnext, applyResolved,
      List.map, hlookup_a, hlookup_b]
  · by_cases h0 : i = 0
    · rw [if_pos h0]
      omega
    · rw [if_neg h0]
      omega
  · rw [hia]
    show i ≠ (mb.clone_with_index (if i = 0 then 1 else 0)).slot_index
    have : (mb.clone_with_index (if i = 0 then 1 else 0)).slot_index =
        (if i = 0 then 1 else 0) := rfl
    rw [this]
    by_cases h0 : i = 0
    · rw [if_pos h0]
      omega
    · rw [if_neg h0]
      omega

/-- A concrete descriptor named `a` at slot index 3. -/
def c9MemberA : Member :=
  { name := "a", slot_index := 3, pre_getattr := .noOp, post_getattr := .noOp,
    pre_setattr := .noOp, post_setattr := .noOp, delattr := .slot,
    default := .noDefault, validator := .mk .int [] Option.none }

/-- A concrete descriptor named `b` also at slot index 3. -/
def c9MemberB : Member :=
  { name := "b", slot_index := 3, pre_getattr := .noOp, post_getattr := .noOp,
    pre_setattr := .noOp, post_setattr := .noOp, delattr := .slot,
    default := .noDefault, validator := .mk .str [] Option.none }

/-- Witness for C9: two descriptors colliding at index 3 resolve to
distinct indices, the second one through a clone, the first untouched. -/
theorem C9_witness :
    ∃ j, resolve_index_conflicts [("a", c9MemberA), ("b", c9MemberB)] =
        .ok [("a", c9MemberA), ("b", c9MemberB.clone_with_index j)] ∧
      j ≠ 3 ∧
      (c9MemberB.clone_with_index j).slot_index = j ∧
      (c9MemberB.clone_with_index j).name = c9MemberB.name ∧
      (c9MemberB.clone_with_index j).pre_getattr = c9MemberB.pre_getattr ∧
      (c9MemberB.clone_with_index j).post_getattr = c9MemberB.post_getattr ∧
      (c9MemberB.clone_with_index j).pre_setattr = c9MemberB.pre_setattr ∧
      (c9MemberB.clone_with_index j).post_setattr = c9MemberB.post_setattr ∧
      (c9MemberB.clone_with_index j).delattr = c9MemberB.delattr ∧
      (c9MemberB.clone_with_index j).default = c9MemberB.default ∧
      (c9MemberB.clone_with_index j).validator = c9MemberB.validator ∧
      c9MemberB.slot_index = 3 ∧
      c9MemberA.slot_index ≠ (c9MemberB.clone_with_index j).slot_index :=
  C9_collision_resolution "a" "b" c9MemberA c9MemberB 3 rfl rfl (by omega) rfl rfl
    (by simp [c9MemberA, c9MemberB])
